import Mathlib

/-!
Verification development for the whatsapp-command-center repository.

The file shallowly embeds the decision core of the repository:
the `Analyzer` class of `src/analyzer.js` (question classification,
priority scoring, mention detection, multi-signal answer scoring),
the `Store` question-lifecycle operations of the persistence module
(`checkForAnswers`, `acceptAnswerCandidate`, `reopenQuestion`,
`updateQuestionAIClassification`), and the `AIClassifier` batching,
retry and rate-limit logic of `src/server.js`.

Texts are modelled as `List Char` (the JS code works on UTF-16 strings;
all inputs considered here are plain text).  Each JavaScript regular
expression used by the source is translated into an executable predicate
over `List Char`; `\b` is translated as a word-boundary test
(`isWordChar` differing on the two sides, with the outside of the string
counting as a non-word position), `\s` as whitespace, `\w` as
alphanumeric-or-underscore, exactly as in JS.  Alternation groups are
expanded into explicit phrase lists; the expansion preserves the
backtracking semantics because every alternative is tried at every
position.  Numbers that the source manipulates as JS floats are modelled
as rationals (`ℚ`); all constants involved are exact decimal fractions,
so rational arithmetic coincides with the float arithmetic on every
value reached here.
-/

namespace Txt

/-- JS `\w` character class: letters, digits, underscore (ASCII). -/
def isWordChar (c : Char) : Bool := c.isAlphanum || c == '_'

/-- Lower-casing a text, as JS `toLowerCase` on ASCII input. -/
def lower (s : List Char) : List Char := s.map Char.toLower

/-- JS `String.prototype.trim`. -/
def trim (s : List Char) : List Char :=
  ((s.dropWhile Char.isWhitespace).reverse.dropWhile Char.isWhitespace).reverse

/-- The character list of a string literal. -/
def chars (s : String) : List Char := s.data

/-- The literal pattern `w` matches in `s` at position `i`. -/
def matchesAt (s w : List Char) (i : ℕ) : Bool := w.isPrefixOf (s.drop i)

/-- `\b` holds just before position `i` of `s`, for a pattern whose first
character is a word character: position `i-1` is outside the string or a
non-word character. -/
def boundaryBefore (s : List Char) (i : ℕ) : Bool :=
  i == 0 || !(isWordChar (s.getD (i - 1) ' '))

/-- `\b` holds just after position `j - 1`, for a pattern whose last
character is a word character: position `j` is outside the string or a
non-word character. -/
def boundaryAfter (s : List Char) (j : ℕ) : Bool :=
  decide (s.length ≤ j) || !(isWordChar (s.getD j ' '))

/-- `\bw\b` matches at position `i` (every phrase used below starts and
ends with a word character). -/
def phraseAt (s w : List Char) (i : ℕ) : Bool :=
  boundaryBefore s i && matchesAt s w i && boundaryAfter s (i + w.length)

/-- `/\bw\b/` tests true somewhere in `s`. -/
def containsPhrase (s w : List Char) : Bool :=
  (List.range (s.length + 1)).any (phraseAt s w)

/-- `/\b(w₁|w₂|…)\b/` tests true somewhere in `s`. -/
def containsAny (s : List Char) (ws : List (List Char)) : Bool :=
  ws.any (containsPhrase s)

/-- `/^(w₁|w₂|…)\b/` : one of the alternatives matches at the start,
followed by a word boundary. -/
def startsWithAny (s : List Char) (ws : List (List Char)) : Bool :=
  ws.any (fun w => phraseAt s w 0)

/-- `/^(w₁|w₂|…)/` without a trailing `\b`: plain prefix test. -/
def startsWithAnyRaw (s : List Char) (ws : List (List Char)) : Bool :=
  ws.any (fun w => w.isPrefixOf s)

/-- `/\b(A…)\b.*\b(B…)\b/` : an `A` alternative somewhere, and a `B`
alternative starting at or after its end. -/
def phraseThenPhrase (s : List Char) (ws1 ws2 : List (List Char)) : Bool :=
  (List.range (s.length + 1)).any fun i =>
    ws1.any fun w1 =>
      phraseAt s w1 i &&
        (List.range (s.length + 1)).any fun j =>
          decide (i + w1.length ≤ j) && ws2.any fun w2 => phraseAt s w2 j

/-- `/\b(A…)\b.*\?/` : an `A` alternative somewhere, a `?` at or after its
end. -/
def phraseThenQm (s : List Char) (ws : List (List Char)) : Bool :=
  (List.range (s.length + 1)).any fun i =>
    ws.any fun w => phraseAt s w i && (s.drop (i + w.length)).any (· == '?')

/-- `/\b(A…)\s*\?/` : an `A` alternative, optional whitespace, then `?`.
No trailing word boundary is required by the source pattern; the `?`
itself constrains what may follow the phrase. -/
def phraseOptSpacesQm (s : List Char) (ws : List (List Char)) : Bool :=
  (List.range (s.length + 1)).any fun i =>
    ws.any fun w =>
      boundaryBefore s i && matchesAt s w i &&
        (((s.drop (i + w.length)).dropWhile Char.isWhitespace).headD ' ' == '?')

/-- `/^(A…)␣*$/`-style full matches: an alternative as prefix, then a
residue accepted by `tail`. -/
def exactAltThen (s : List Char) (ws : List (List Char)) (tail : List Char → Bool) : Bool :=
  ws.any fun w => w.isPrefixOf s && tail (s.drop w.length)

/-- residue `\s*\??$`. -/
def tailOptSpacesOptQm (r : List Char) : Bool :=
  let t := r.dropWhile Char.isWhitespace
  t == [] || t == ['?']

/-- residue `\s*[.!]?$`. -/
def tailOptSpacesOptDotBang (r : List Char) : Bool :=
  let t := r.dropWhile Char.isWhitespace
  t == [] || t == ['.'] || t == ['!']

/-- residue `\s*\?*$`. -/
def tailOptSpacesQms (r : List Char) : Bool :=
  (r.dropWhile Char.isWhitespace).all (· == '?')

/-- `n` digits at positions `i, …, i+n-1` (positions outside the string
fail). -/
def digitsAt (s : List Char) (i n : ℕ) : Bool :=
  (List.range n).all fun k => (s.getD (i + k) ' ').isDigit

/-- `/\b\d{1,2}[:.]\d{2}\b/` : a clock-time-like token. -/
def timeLike (s : List Char) : Bool :=
  (List.range (s.length + 1)).any fun i =>
    boundaryBefore s i &&
      ([1, 2].any fun d =>
        digitsAt s i d &&
          ((s.getD (i + d) ' ' == ':') || (s.getD (i + d) ' ' == '.')) &&
          digitsAt s (i + d + 1) 2 && boundaryAfter s (i + d + 3))

/-- `/\b\d+\s*(u₁|u₂|…)\b/` : digits, optional whitespace, a unit word.
Taking the maximal digit run and the maximal whitespace run loses no
matches: a shorter digit run would have to continue with a digit where
the unit word starts, and unit words start with letters. -/
def numUnit (s : List Char) (units : List (List Char)) : Bool :=
  (List.range (s.length + 1)).any fun i =>
    boundaryBefore s i && (s.getD i ' ').isDigit &&
      (let j := i + ((s.drop i).takeWhile Char.isDigit).length
       let k := j + ((s.drop j).takeWhile Char.isWhitespace).length
       units.any fun u => matchesAt s u k && boundaryAfter s (k + u.length))

/-- `/\bhttps?:\/\/\S+\b/` : a protocol prefix followed by a non-empty
run of non-space characters; the trailing `\b` is satisfiable exactly
when the run contains a word character. -/
def urlLike (s : List Char) : Bool :=
  (List.range (s.length + 1)).any fun i =>
    boundaryBefore s i &&
      ([chars "http://", chars "https://"].any fun p =>
        matchesAt s p i &&
          (let run := (s.drop (i + p.length)).takeWhile (fun c => !c.isWhitespace)
           !run.isEmpty && run.any isWordChar))

/-- `/^@?\w+\s+(w₁|w₂|…)\b/` : optional `@`, a word, whitespace, then an
alternative with a trailing boundary. -/
def atWordThen (s : List Char) (ws : List (List Char)) : Bool :=
  let t := if s.headD ' ' == '@' then s.drop 1 else s
  let wlen := (t.takeWhile isWordChar).length
  decide (0 < wlen) &&
    (let rest := t.drop wlen
     let slen := (rest.takeWhile Char.isWhitespace).length
     decide (0 < slen) &&
       (let u := rest.drop slen
        ws.any fun w => w.isPrefixOf u && !(isWordChar (u.getD w.length ' '))))

/-- `/\bany\s*(one|body)\s*(know|here|available|free)\b/` (note the `\s*`:
zero spaces are allowed between the pieces). -/
def anyoneLike (s : List Char) : Bool :=
  (List.range (s.length + 1)).any fun i =>
    boundaryBefore s i && matchesAt s (chars "any") i &&
      (let j := i + 3 + ((s.drop (i + 3)).takeWhile Char.isWhitespace).length
       [chars "one", chars "body"].any fun m =>
         matchesAt s m j &&
           (let k := j + m.length
            let k2 := k + ((s.drop k).takeWhile Char.isWhitespace).length
            [chars "know", chars "here", chars "available", chars "free"].any fun w =>
              matchesAt s w k2 && boundaryAfter s (k2 + w.length)))

/-- Replace every character that is neither a word character nor
whitespace by a space: JS `replace(/[^\w\s]/g, ' ')`. -/
def replaceNonWord (s : List Char) : List Char :=
  s.map fun c => if isWordChar c || c.isWhitespace then c else ' '

/-- Split on whitespace runs, dropping empty tokens.  JS
`split(/\s+/)` can produce one leading empty token; every use in the
source filters tokens by a positive length bound, so dropping empties is
observationally equal. -/
def splitWsAux : List Char → List Char → List (List Char)
  | [], acc => if acc.isEmpty then [] else [acc.reverse]
  | c :: rest, acc =>
    if c.isWhitespace then
      if acc.isEmpty then splitWsAux rest []
      else acc.reverse :: splitWsAux rest []
    else splitWsAux rest (c :: acc)

def splitWs (s : List Char) : List (List Char) := splitWsAux s []

/-- Keep the first occurrence of each element:
JS `filter((w, i, arr) => arr.indexOf(w) === i)`. -/
def dedupFirst (l : List (List Char)) : List (List Char) :=
  l.foldl (fun acc w => if acc.contains w then acc else acc ++ [w]) []

/-- `a.includes(b)` : substring containment. -/
def includesSub (s sub : List Char) : Bool :=
  (List.range (s.length + 1)).any fun i => matchesAt s sub i

/-- The part of a string before the first `@`: JS `x.split('@')[0]`. -/
def beforeAt (s : List Char) : List Char := s.takeWhile (· ≠ '@')

/-- The ASCII apostrophe, kept out of string literals. -/
def apos : Char := Char.ofNat 39

end Txt

namespace Txt

/-- Expand a two-group alternation `(a…) (b…)` joined by one space. -/
def cross (as bs : List String) : List (List Char) :=
  as.flatMap fun a => bs.map fun b => chars (a ++ " " ++ b)

/-- Expansion joining already-built phrase lists by one space. -/
def crossC (as bs : List (List Char)) : List (List Char) :=
  as.flatMap fun a => bs.map fun b => a ++ [' '] ++ b

/-- Build a phrase containing one apostrophe from its two halves. -/
def apo (a b : String) : List Char := chars a ++ [apos] ++ chars b

/-- JS `replace(/\s+/g, ' ')` followed by `trim`: whitespace runs
collapse to single spaces and the ends are stripped. -/
def joinSpace (ws : List (List Char)) : List Char := (ws.intersperse [' ']).flatten

/-- residue `\s*$`. -/
def tailOptSpacesEnd (r : List Char) : Bool :=
  (r.dropWhile Char.isWhitespace).isEmpty

/-- `/\b(A…)\b.*\?$/` : an alternative somewhere, strictly before a final
`?`. -/
def phraseThenQmEnd (s : List Char) (ws : List (List Char)) : Bool :=
  (s.getLastD ' ' == '?') &&
    (List.range (s.length + 1)).any fun i =>
      ws.any fun w => phraseAt s w i && decide (i + w.length + 1 ≤ s.length)

/-- `/\bhttps?:\/\//` : a protocol prefix with a leading boundary. -/
def urlProto (s : List Char) : Bool :=
  (List.range (s.length + 1)).any fun i =>
    boundaryBefore s i &&
      ([chars "http://", chars "https://"].any fun p => matchesAt s p i)

end Txt

namespace Analyzer

open Txt

/-- Inbound chat message as the analyzer sees it (`src/analyzer.js`).
`quotedBody` models `message._data?.quotedMsg?.body`. -/
structure WMessage where
  body : String
  fromMe : Bool := false
  mentionedIds : List String := []
  hasQuotedMsg : Bool := false
  quotedBody : Option String := none
deriving DecidableEq

/-- `_buildNamePatterns`: the full tracked name plus every
whitespace-separated part of length at least 3, each later matched
case-insensitively between word boundaries.  (All names considered here
start and end with word characters.) -/
def namePatterns (trackName : String) : List (List Char) :=
  let full := chars trackName
  if (trim full).isEmpty then []
  else full :: (splitWs (trim full)).filter fun p => decide (3 ≤ p.length)

/-- `_matchesAnyNamePattern`. -/
def matchesAnyNamePattern (trackName : String) (text : List Char) : Bool :=
  (namePatterns trackName).any fun p => containsPhrase (lower text) (lower p)

/-- `isMention(message, myId, myLid)`.  `myId`/`myLid` are JS-falsy when
`none` or empty. -/
def isMention (trackName : String) (m : WMessage) (myId myLid : Option String) : Bool :=
  let idList : Option String → List (List Char) := fun o =>
    match o with
    | some s => if s.isEmpty then [] else [chars s, beforeAt (chars s)]
    | none => []
  let myIds := idList myId ++ idList myLid
  let mentionIdHit :=
    !m.mentionedIds.isEmpty && !myIds.isEmpty &&
      m.mentionedIds.any fun mid =>
        myIds.contains (chars mid) || myIds.contains (beforeAt (chars mid))
  mentionIdHit || matchesAnyNamePattern trackName (chars m.body) ||
    (m.hasQuotedMsg &&
      (match m.quotedBody with
       | some qb => !qb.isEmpty && matchesAnyNamePattern trackName (chars qb)
       | none => false))

/-- `_isNonQuestion`: the ordered false-positive exclusion list. -/
def isNonQuestion (text : List Char) : Bool :=
  let lowered := trim (lower text)
  if lowered.length < 5 then true
  else
    exactAltThen lowered
        [chars "lol", chars "haha", chars "😂", chars "🤣", chars "😅", chars "💀",
         chars "omg", chars "wow", chars "nice", chars "great", chars "awesome",
         chars "cool", chars "ok", chars "okay"] tailOptSpacesOptQm ||
    exactAltThen lowered
        [chars "good morning", chars "good afternoon", chars "good evening",
         chars "gm", chars "ga"] tailOptSpacesOptQm ||
    exactAltThen lowered
        [chars "hi", chars "hello", chars "hey", chars "sup", chars "yo"] tailOptSpacesOptQm ||
    exactAltThen lowered
        [chars "right", chars "ikr", chars "i know right", chars "same",
         chars "true", chars "facts"] tailOptSpacesOptQm ||
    exactAltThen lowered
        [chars "done", chars "sorted", chars "fixed", chars "handled", chars "resolved",
         chars "completed", chars "finished", chars "sent", chars "updated",
         chars "approved", chars "confirmed", chars "noted", chars "acknowledged",
         chars "received", chars "accepted", chars "rejected", chars "denied"]
        tailOptSpacesOptDotBang ||
    exactAltThen lowered [chars "what", chars "wut", chars "wat"] tailOptSpacesQms ||
    exactAltThen lowered
        [chars "huh", chars "hmm", chars "eh", chars "ah", chars "oh"] tailOptSpacesOptQm ||
    exactAltThen lowered
        [chars "really", chars "seriously", chars "for real"] tailOptSpacesOptQm ||
    (decide (0 < lowered.length) && lowered.all (· == '?')) ||
    lowered.all fun c => !(isWordChar c)

/-- The yes/no starter words of `_classifyQuestionType`. -/
def yesNoStarters : List (List Char) :=
  [chars "is", chars "are", chars "was", chars "were", chars "do", chars "does",
   chars "did", chars "can", chars "could", chars "would", chars "should",
   chars "will", chars "shall", chars "have", chars "has", chars "had",
   chars "may", chars "might",
   apo "isn" "t", apo "aren" "t", apo "wasn" "t", apo "weren" "t",
   apo "don" "t", apo "doesn" "t", apo "didn" "t", apo "can" "t",
   apo "couldn" "t", apo "wouldn" "t", apo "shouldn" "t", apo "won" "t"]

/-- The approval rule group. -/
def approvalMatch (lowered : List Char) : Bool :=
  phraseThenQm lowered
      [chars "approve", chars "approved", chars "approval", chars "sign off",
       chars "sign-off", chars "greenlight", chars "green light"] ||
  containsAny lowered
      (cross ["can i", "can we"] ["go ahead", "proceed", "move forward", "start", "begin"]) ||
  containsAny lowered
      (cross ["is this", "does this", "are we"] ["ok", "okay", "good", "ready", "approved"]) ||
  containsPhrase lowered (chars "permission to") ||
  phraseThenQm lowered
      (cross ["ready to", "good to"] ["go", "send", "ship", "launch", "submit", "publish"])

/-- The scheduling rule group. -/
def scheduleMatch (lowered : List Char) : Bool :=
  phraseThenPhrase lowered
      [chars "when", chars "what time", chars "what day", chars "which day"]
      [chars "meeting", chars "call", chars "session", chars "standup",
       chars "sync", chars "available", chars "free"] ||
  phraseThenPhrase lowered
      [chars "meeting", chars "call", chars "session", chars "standup", chars "sync"]
      [chars "when", chars "what time", chars "schedule"] ||
  containsPhrase lowered (chars "schedule") ||
  containsAny lowered
      (crossC [apo "what" "s", chars "what is"] [chars "the time", chars "a good time"]) ||
  containsAny lowered
      (cross ["when can", "when should", "when will", "when do"] ["we", "you", "i", "they"]) ||
  phraseOptSpacesQm lowered
      [chars "availability", chars "availabilities", chars "available"]

/-- The status-check rule group. -/
def statusMatch (lowered : List Char) : Bool :=
  phraseThenQm lowered
      [chars "status", chars "update", chars "progress", chars "eta",
       chars "timeline", chars "deadline"] ||
  containsAny lowered
      (crossC [apo "what" "s", chars "what is"]
        [chars "the status", chars "the update", chars "the progress",
         chars "the eta", chars "the plan", chars "the timeline"]) ||
  containsAny lowered (cross ["any", "got"] ["update", "news", "progress"]) ||
  containsAny lowered
      (crossC [apo "how" "s", chars "how is"]
        (crossC [chars "it", chars "that", chars "the", chars "this"]
          [chars "going", chars "coming", chars "progressing"])) ||
  containsAny lowered
      (cross ["where are", "where do"] ["we stand", "you stand", "they stand"]) ||
  containsPhrase lowered (chars "how far along")

/-- The action-request rule group. -/
def actionMatch (lowered : List Char) : Bool :=
  phraseThenPhrase lowered
      (cross ["can"] ["you", "someone", "anyone", "anybody", "we"])
      [chars "send", chars "do", chars "make", chars "create", chars "check",
       chars "look", chars "handle", chars "fix", chars "update", chars "share",
       chars "forward", chars "upload", chars "post", chars "add",
       chars "remove", chars "set up"] ||
  containsAny lowered [chars "could you", chars "could someone", chars "could anyone"] ||
  containsAny lowered
      (cross ["would you", "would someone"] ["mind", "be able to", "please"]) ||
  phraseThenPhrase lowered [chars "please"]
      [chars "send", chars "do", chars "make", chars "create", chars "check",
       chars "look", chars "handle", chars "fix", chars "update", chars "share"] ||
  containsAny lowered
      [chars "need you to", chars "need someone to", chars "need help to"] ||
  containsAny lowered
      (cross ["who", "which one of you"] ["can", "will", "is going to"])

/-- The opinion rule group. -/
def opinionMatch (lowered : List Char) : Bool :=
  containsAny lowered
      [chars "what do you think", chars "what do you all think",
       apo "what do y" "all think", chars "what do everyone think",
       chars "what do we think"] ||
  phraseOptSpacesQm lowered [chars "thoughts"] ||
  containsPhrase lowered (chars "wdyt") ||
  phraseOptSpacesQm lowered [chars "opinion", chars "opinions"] ||
  phraseOptSpacesQm lowered [chars "feedback"] ||
  containsAny lowered
      (crossC [apo "what" "s", chars "what is"]
        [chars "your take", chars "your view", chars "your opinion", chars "your thought"]) ||
  phraseOptSpacesQm lowered
      (cross ["good", "bad", "better", "best", "right", "wrong"]
        ["idea", "approach", "way", "option", "choice"]) ||
  containsAny lowered (cross ["should", "shall"] ["we", "i"]) ||
  phraseThenQm lowered [chars "prefer", chars "preference"]

/-- The implicit-question fallback group. -/
def implicitMatch (lowered : List Char) : Bool :=
  anyoneLike lowered ||
  containsAny lowered [chars "any idea", chars "any ideas"] ||
  containsPhrase lowered (chars "do you have") ||
  containsPhrase lowered (chars "have you") ||
  containsPhrase lowered (chars "is there") ||
  containsAny lowered (cross ["wondering"] ["if", "about", "whether"]) ||
  containsAny lowered (cross ["curious"] ["if", "about", "whether"])

/-- `_classifyQuestionType`: ordered rule groups, first match wins. -/
def classifyQuestionType (text : List Char) : Option String :=
  let lowered := trim (lower text)
  if startsWithAny lowered yesNoStarters &&
      (lowered.contains '?' || decide (lowered.length < 80)) then some "yes_no"
  else if approvalMatch lowered then some "approval"
  else if scheduleMatch lowered then some "scheduling"
  else if statusMatch lowered then some "status_check"
  else if actionMatch lowered then some "action_request"
  else if opinionMatch lowered then some "opinion"
  else if startsWithAny lowered
      [chars "who", chars "what", chars "where", chars "when", chars "why",
       chars "how", chars "which", chars "whose", chars "whom"] then some "info_seeking"
  else if phraseThenQmEnd lowered
      [chars "who", chars "what", chars "where", chars "when", chars "why",
       chars "how", chars "which"] then some "info_seeking"
  else if lowered.getLastD ' ' == '?' then some "general"
  else if implicitMatch lowered then some "general"
  else none

/-- Urgency vocabulary of `_classifyPriority` (+3). -/
def urgentWords : List (List Char) :=
  [chars "urgent", chars "asap", chars "emergency", chars "critical",
   chars "immediately", chars "right now", chars "time sensitive",
   chars "deadline today", chars "eod", chars "end of day", chars "blocker",
   chars "blocking", chars "stuck"]

/-- Importance vocabulary of `_classifyPriority` (+2).  The source
alternative `escalat` carries a trailing `\b`, so it only matches the
literal token `escalat`. -/
def highWords : List (List Char) :=
  [chars "important", chars "priority", chars "needed", chars "required",
   chars "must", chars "deadline", chars "by today", chars "by tomorrow",
   chars "by monday", chars "by tuesday", chars "by wednesday",
   chars "by thursday", chars "by friday", chars "client", chars "customer",
   chars "partner", chars "escalat"]

/-- Low-urgency hedging vocabulary of `_classifyPriority` (−2). -/
def lowWords : List (List Char) :=
  [chars "just wondering", chars "just curious", chars "no rush",
   chars "whenever", chars "no hurry", chars "low priority",
   chars "not urgent", chars "fyi", chars "btw"]

/-- `_isDirectedAtMe`. -/
def isDirectedAtMe (trackName : String) (m : WMessage) (myId myLid : Option String)
    (isGroupChat : Bool) : Bool :=
  if !isGroupChat then true else isMention trackName m myId myLid

/-- `_classifyPriority`: additive point score mapped to a label. -/
def classifyPriority (trackName : String) (text : List Char) (questionType : String)
    (m : WMessage) (myId myLid : Option String) (isGroupChat : Bool) : String :=
  let lowered := lower text
  let score : ℚ :=
    (if containsAny lowered urgentWords then 3 else 0) +
    (if containsAny lowered highWords then 2 else 0) +
    (if isDirectedAtMe trackName m myId myLid isGroupChat then 1 else 0) +
    (if questionType == "approval" then 1 else 0) +
    (if questionType == "action_request" then 1/2 else 0) +
    (if questionType == "status_check" then 1/2 else 0) -
    (if containsAny lowered lowWords then 2 else 0)
  if 3 ≤ score then "urgent"
  else if 2 ≤ score then "high"
  else if score ≤ -1 then "low"
  else "normal"

/-- The stop-word set of `_extractKeywords`. -/
def stopWords : List (List Char) :=
  [chars "the", chars "a", chars "an", chars "is", chars "are", chars "was",
   chars "were", chars "be", chars "been", chars "being",
   chars "have", chars "has", chars "had", chars "do", chars "does",
   chars "did", chars "will", chars "would", chars "could",
   chars "should", chars "may", chars "might", chars "shall", chars "can",
   chars "need", chars "must",
   chars "i", chars "you", chars "he", chars "she", chars "it", chars "we",
   chars "they", chars "me", chars "him", chars "her", chars "us", chars "them",
   chars "my", chars "your", chars "his", chars "its", chars "our", chars "their",
   chars "this", chars "that", chars "these", chars "those", chars "what",
   chars "which", chars "who", chars "whom",
   chars "when", chars "where", chars "why", chars "how",
   chars "and", chars "but", chars "or", chars "nor", chars "not", chars "so",
   chars "yet", chars "both", chars "either", chars "neither",
   chars "in", chars "on", chars "at", chars "to", chars "for", chars "of",
   chars "with", chars "by", chars "from", chars "about", chars "into",
   chars "if", chars "then", chars "than", chars "too", chars "very",
   chars "just", chars "also", chars "any", chars "all", chars "no", chars "yes",
   chars "up", chars "out", chars "there", chars "here", chars "now",
   chars "get", chars "got", chars "still", chars "some",
   chars "please", chars "thanks", chars "thank", chars "know", chars "think",
   chars "anyone", chars "someone", chars "anybody",
   chars "everybody", chars "everyone", chars "something", chars "anything",
   chars "nothing"]

/-- `_extractKeywords`: lower-case, strip punctuation, split, drop short
and stop words, dedupe keeping first occurrences, cap at 15. -/
def extractKeywords (text : List Char) : List (List Char) :=
  (dedupFirst ((splitWs (replaceNonWord (lower text))).filter
      fun w => decide (2 < w.length) && !(stopWords.contains w))).take 15

/-- The detailed question-analysis record returned by `analyzeQuestion`. -/
structure QuestionAnalysis where
  isQuestion : Bool
  questionType : String
  priority : String
  keywords : List (List Char)
  directedAtMe : Bool
deriving DecidableEq

/-- `analyzeQuestion(message, myId, myLid, isGroupChat)`. -/
def analyzeQuestion (trackName : String) (m : WMessage) (myId myLid : Option String)
    (isGroupChat : Bool) : Option QuestionAnalysis :=
  let body := trim (chars m.body)
  if body.isEmpty || body.length < 3 then none
  else if isNonQuestion body then none
  else
    match classifyQuestionType body with
    | none => none
    | some qt =>
      some { isQuestion := true
             questionType := qt
             priority := classifyPriority trackName body qt m myId myLid isGroupChat
             keywords := extractKeywords body
             directedAtMe := isDirectedAtMe trackName m myId myLid isGroupChat }

/-- The record returned by `analyze`. -/
structure AnalyzeResult where
  isMention : Bool
  isQuestion : Bool
  isDirectedQuestion : Bool
  isDirectMessage : Bool
  questionAnalysis : Option QuestionAnalysis
deriving DecidableEq

/-- `analyze(message, myId, myLid, isGroupChat)`: own messages return the
all-negative default record before any analysis runs. -/
def analyze (trackName : String) (m : WMessage) (myId myLid : Option String)
    (isGroupChat : Bool) : AnalyzeResult :=
  if m.fromMe then
    { isMention := false, isQuestion := false, isDirectedQuestion := false,
      isDirectMessage := false, questionAnalysis := none }
  else
    let mention := isMention trackName m myId myLid
    match analyzeQuestion trackName m myId myLid isGroupChat with
    | some qa =>
      { isMention := mention, isQuestion := true, isDirectedQuestion := qa.directedAtMe,
        isDirectMessage := !isGroupChat, questionAnalysis := some qa }
    | none =>
      { isMention := mention, isQuestion := false, isDirectedQuestion := false,
        isDirectMessage := !isGroupChat, questionAnalysis := none }

/-- JS `Math.round`: half rounds toward positive infinity. -/
def jsRound (q : ℚ) : ℤ := ⌊q + 1/2⌋

/-- JS `x.toFixed(2)` for the non-negative values reached here. -/
def toFixed2 (q : ℚ) : String :=
  let n := jsRound (q * 100)
  let ip := n / 100
  let fp := (n % 100).toNat
  toString ip ++ "." ++ (if fp < 10 then "0" ++ toString fp else toString fp)

/-- `_textSimilarity`: exact match, short-text substring check, otherwise
character-3-gram Jaccard overlap. -/
def textSimilarity (a0 b0 : List Char) : ℚ :=
  if a0.isEmpty || b0.isEmpty then 0
  else if a0 == b0 then 1
  else
    let a := joinSpace (splitWs (lower a0))
    let b := joinSpace (splitWs (lower b0))
    if (decide (a.length < 20) || decide (b.length < 20)) &&
        (includesSub a b || includesSub b a) then 9/10
    else
      let aGrams := dedupFirst ((List.range (a.length + 1 - 3)).map fun i => (a.drop i).take 3)
      let bGrams := dedupFirst ((List.range (b.length + 1 - 3)).map fun i => (b.drop i).take 3)
      if aGrams.isEmpty || bGrams.isEmpty then 0
      else
        let inter := (aGrams.filter fun g => bGrams.contains g).length
        let union := aGrams.length + bGrams.length - inter
        if 0 < union then (inter : ℚ) / (union : ℚ) else 0

/-- `_getAnswerPatternScore`: anti-patterns short-circuit to 0; otherwise
strong/medium/weak pattern tiers plus length floors, capped at 1.  The
source also receives the question type but never reads it. -/
def getAnswerPatternScore (text : List Char) : ℚ :=
  let anti :=
    startsWithAnyRaw text
        [chars "lol", chars "haha", chars "😂", chars "🤣", chars "😅", chars "💀"] ||
    startsWithAny text
        [chars "good morning", chars "good afternoon", chars "good evening",
         chars "hi", chars "hello", chars "hey"] ||
    (decide (0 < text.length) && text.all (· == '?')) ||
    exactAltThen text [chars "same", chars "me too", chars "i agree"] tailOptSpacesEnd
  if anti then 0
  else
    let strong :=
      startsWithAny text
          [chars "yes", chars "yeah", chars "yep", chars "yup", chars "ya",
           chars "yea", chars "sure", chars "correct", chars "exactly",
           chars "absolutely", chars "definitely", chars "of course", chars "right"] ||
      startsWithAny text
          [chars "no", chars "nope", chars "nah", chars "not really",
           chars "unfortunately", chars "sadly", chars "afraid not", chars "negative"] ||
      startsWithAny text
          [chars "done", chars "sorted", chars "fixed", chars "handled",
           chars "resolved", chars "completed", chars "finished", chars "sent",
           chars "updated", chars "approved"] ||
      containsAny text
          [apo "i" "ll", chars "i will", chars "i can", apo "we" "ll",
           chars "we will", chars "we can", chars "let me",
           apo "i" "m on it", chars "i am on it"] ||
      containsAny text
          [chars "here you go", chars "here it is", chars "see attached",
           chars "check this", chars "take a look", chars "see below"] ||
      containsAny text
          [chars "the answer is", apo "it" "s", chars "it is", apo "they" "re",
           chars "they are", apo "that" "s", chars "that is"] ||
      atWordThen text
          [chars "yes", chars "no", chars "it", chars "the", chars "that",
           chars "here", chars "done", chars "i"]
    let medium :=
      urlLike text ||
      timeLike text ||
      numUnit text
          [chars "pm", chars "am", chars "hr", chars "hrs", chars "hour",
           chars "hours", chars "min", chars "mins", chars "minute",
           chars "minutes", chars "day", chars "days", chars "week", chars "weeks"] ||
      containsAny text
          [chars "tomorrow", chars "today", chars "tonight", chars "monday",
           chars "tuesday", chars "wednesday", chars "thursday", chars "friday",
           chars "saturday", chars "sunday"] ||
      containsAny text
          [chars "because", chars "since", chars "the reason", chars "due to"] ||
      containsAny text
          [chars "try", chars "use", chars "go to", chars "click", chars "open",
           chars "check", chars "look at"] ||
      containsAny text
          [chars "attached", chars "uploading", chars "sending", chars "forwarding"]
    let weak :=
      containsAny text
          [chars "ok", chars "okay", chars "sure thing", chars "will do",
           chars "got it", chars "noted", chars "thanks", chars "thank you",
           chars "understood", chars "acknowledged"] ||
      containsAny text
          [chars "i think", chars "maybe", chars "probably", chars "possibly",
           chars "perhaps", chars "likely"]
    let s1 : ℚ := if strong then 85/100 else 0
    let s2 : ℚ := if s1 < 85/100 && medium then max s1 (1/2) else s1
    let s3 : ℚ := if s2 < 1/2 && weak then max s2 (3/10) else s2
    let s4 : ℚ :=
      if 100 < text.length then max s3 (2/5)
      else if 50 < text.length then max s3 (1/4)
      else s3
    min s4 1

/-- `_getAnswerPatternDetail`. -/
def getAnswerPatternDetail (text : List Char) : String :=
  if startsWithAny text
      [chars "yes", chars "yeah", chars "yep", chars "sure", chars "correct",
       chars "absolutely", chars "definitely"] then "affirmative response"
  else if startsWithAny text
      [chars "no", chars "nope", chars "nah", chars "not really",
       chars "unfortunately"] then "negative response"
  else if startsWithAny text
      [chars "done", chars "sorted", chars "fixed", chars "handled",
       chars "resolved", chars "completed"] then "task completion"
  else if urlProto text then "contains link"
  else if containsAny text
      [chars "attached", chars "uploading", chars "sending"] then "sharing resource"
  else "answer-like pattern"

/-- `_questionTypeAnswerMatch`: a JS `switch` on a property that callers
may pass as `undefined`, in which case the default branch yields 0. -/
def questionTypeAnswerMatch (questionType : Option String) (answerText : List Char) : ℚ :=
  let lowered := lower answerText
  match questionType with
  | none => 0
  | some t =>
    if t == "yes_no" then
      if startsWithAny lowered
          [chars "yes", chars "yeah", chars "yep", chars "yup", chars "sure",
           chars "correct", chars "no", chars "nope", chars "nah",
           chars "not really"] then 9/10
      else if containsAny lowered
          [chars "yes", chars "no", chars "correct", chars "incorrect",
           chars "right", chars "wrong"] then 1/2
      else 0
    else if t == "approval" then
      if containsAny lowered
          [chars "approved", chars "approve", chars "go ahead", chars "lgtm",
           chars "looks good", chars "green light", chars "sign off",
           chars "rejected", chars "denied"] then 95/100
      else if containsAny lowered
          [chars "yes", chars "sure", chars "ok", chars "no", chars "hold off",
           chars "wait", chars "not yet"] then 3/5
      else 0
    else if t == "scheduling" then
      if timeLike lowered then 4/5
      else if containsAny lowered
          [chars "tomorrow", chars "today", chars "monday", chars "tuesday",
           chars "wednesday", chars "thursday", chars "friday", chars "pm",
           chars "am"] then 7/10
      else if containsAny lowered
          [chars "works for me", apo "i" "m free", chars "available",
           chars "busy", apo "can" "t make it"] then 3/5
      else 0
    else if t == "status_check" then
      if containsAny lowered
          [chars "done", chars "complete", chars "in progress",
           chars "working on", chars "almost", chars "nearly", chars "started",
           chars "not started", chars "blocked"] then 4/5
      else if containsAny lowered
          [chars "eta", chars "expected", chars "should be", chars "will be",
           chars "by"] then 1/2
      else 0
    else if t == "action_request" then
      if containsAny lowered
          [chars "done", chars "on it", chars "will do", apo "i" "ll",
           chars "i can", chars "sending", chars "sent", chars "shared",
           chars "handling"] then 4/5
      else if containsAny lowered
          [apo "i can" "t", chars "unable", chars "not possible",
           chars "someone else"] then 3/5
      else 0
    else if t == "info_seeking" then
      if 30 < lowered.length then 3/10 else 0
    else if t == "opinion" then
      if containsAny lowered
          [chars "i think", chars "in my opinion", chars "imo", apo "i" "d say",
           chars "i prefer", chars "i suggest", chars "i recommend"] then 4/5
      else if containsAny lowered
          [chars "agree", chars "disagree", chars "option", chars "better",
           chars "worse", chars "prefer"] then 1/2
      else 0
    else 0

/-- `_keywordOverlapScore`. -/
def keywordOverlapScore (questionKeywords answerKeywords : List (List Char)) : ℚ :=
  if questionKeywords.isEmpty || answerKeywords.isEmpty then 0
  else
    let qSet := dedupFirst questionKeywords
    let matched := (answerKeywords.filter fun w => qSet.contains w).length
    (matched : ℚ) / (qSet.length : ℚ)

/-- The question-side input of `scoreAnswer`.  `questionType` and
`keywords` are `Option` because callers pass objects that may lack the
properties (the stored row uses snake_case column names, so the
camelCase reads come back `undefined`). -/
structure ScoreQuestion where
  body : String
  sender : String
  questionType : Option String
  keywords : Option (List (List Char))
deriving DecidableEq

/-- The candidate-message input of `scoreAnswer`. -/
structure ScoreCandidate where
  body : String
  sender : String
deriving DecidableEq

/-- The options object of `scoreAnswer`, with the source defaults. -/
structure ScoreOpts where
  isQuotedReply : Bool := false
  quotedMsgBody : Option String := none
  quotedMsgSender : Option String := none
  isFromMe : Bool := false
  timeDeltaMs : ℤ := 0
  recentMsgCount : ℕ := 0
deriving DecidableEq

/-- One entry of the `signals` map: name, own score, human-readable
detail (JS object insertion order is kept as list order). -/
structure Signal where
  name : String
  score : ℚ
  detail : String
deriving DecidableEq

/-- Quoted-reply contribution (signal 1): the added score and the signal
entry, if any. -/
def quotedReplySignal (question : ScoreQuestion) (qBody : List Char)
    (opts : ScoreOpts) : ℚ × List Signal :=
  match opts.isQuotedReply, opts.quotedMsgBody with
  | true, some qb =>
    if qb.isEmpty then (0, [])
    else
      let quotedLower := trim (lower (chars qb))
      let similarity := textSimilarity quotedLower qBody
      if 7/10 < similarity then
        (1, [{ name := "quoted_reply", score := 1,
               detail := "quoted reply (similarity: " ++ toFixed2 similarity ++ ")" }])
      else if opts.quotedMsgSender == some question.sender && 3/10 < similarity then
        (4/5, [{ name := "quoted_reply", score := 4/5,
                 detail := "quoted same sender, partial match" }])
      else (0, [])
  | _, _ => (0, [])

/-- Time-proximity contribution (signal 5). -/
def timeProximitySignal (timeDeltaMs : ℤ) : ℚ × List Signal :=
  let minutesApart : ℚ := (timeDeltaMs.natAbs : ℚ) / 60000
  if minutesApart ≤ 2 then
    (1/5, [{ name := "time_proximity", score := 1/5, detail := "within 2 minutes" }])
  else if minutesApart ≤ 10 then
    (3/20, [{ name := "time_proximity", score := 3/20, detail := "within 10 minutes" }])
  else if minutesApart ≤ 60 then
    (2/25, [{ name := "time_proximity", score := 2/25, detail := "within 1 hour" }])
  else if 240 < minutesApart then
    (-(1/10), [{ name := "time_proximity", score := -(1/10), detail := "over 4 hours old" }])
  else (0, [])

/-- Conversation-proximity contribution (signal 6). -/
def conversationProximitySignal (recentMsgCount : ℕ) : ℚ × List Signal :=
  if recentMsgCount ≤ 2 then
    (3/20, [{ name := "conversation_proximity", score := 3/20,
              detail := toString recentMsgCount ++ " messages between" }])
  else if recentMsgCount ≤ 5 then
    (2/25, [{ name := "conversation_proximity", score := 2/25,
              detail := toString recentMsgCount ++ " messages between" }])
  else (0, [])

/-- The running total of `scoreAnswer` after signals 1–6, i.e. just
before the self-reply multiplier of signal 7 is considered.  None of
these six signals reads the candidate sender. -/
def scoreAnswerPre (question : ScoreQuestion) (aBody : List Char)
    (opts : ScoreOpts) : ℚ :=
  let qBody := trim (lower (chars question.body))
  let t1 := (quotedReplySignal question qBody opts).1
  let patternScore := getAnswerPatternScore aBody
  let t2 := if 0 < patternScore then patternScore * (2/5) else 0
  let questionKeywords := question.keywords.getD (extractKeywords qBody)
  let overlap := keywordOverlapScore questionKeywords (extractKeywords aBody)
  let t3 := if 0 < overlap then overlap * (1/4) else 0
  let t4 :=
    if !question.sender.isEmpty &&
        (splitWs (lower (chars question.sender))).any
          (fun part => decide (3 ≤ part.length) && includesSub aBody part)
      then (3/10 : ℚ) else 0
  let t5 := (timeProximitySignal opts.timeDeltaMs).1
  let t6 := (conversationProximitySignal opts.recentMsgCount).1
  t1 + t2 + t3 + t4 + t5 + t6

/-- Substantive-reply contribution (signal 9), added after the
self-reply multiplier. -/
def substContrib (aBody : List Char) : ℚ :=
  if 100 < aBody.length then 3/20
  else if 30 < aBody.length then 1/20
  else 0

/-- Type-match contribution (signal 10), added after the self-reply
multiplier. -/
def typeContrib (question : ScoreQuestion) (aBody : List Char) : ℚ :=
  let typeScore := questionTypeAnswerMatch question.questionType aBody
  if 0 < typeScore then typeScore * (1/5) else 0

/-- The final running total of `scoreAnswer` (before clamping to [0,1]
and rounding): signals 1–6, then the ×0.3 self-reply multiplier, then
the manager-reply, substantive-reply and type-match additions. -/
def scoreAnswerTotal (question : ScoreQuestion) (candidateMsg : ScoreCandidate)
    (opts : ScoreOpts) : ℚ :=
  let aBody := trim (lower (chars candidateMsg.body))
  let base := scoreAnswerPre question aBody opts
  let afterSelf := if candidateMsg.sender == question.sender then base * (3/10) else base
  let afterMgr :=
    if opts.isFromMe && candidateMsg.sender != question.sender then afterSelf + 1/4
    else afterSelf
  afterMgr + substContrib aBody + typeContrib question aBody

/-- The signal map built by `scoreAnswer`, in insertion order. -/
def scoreAnswerSignals (question : ScoreQuestion) (candidateMsg : ScoreCandidate)
    (opts : ScoreOpts) : List Signal :=
  let qBody := trim (lower (chars question.body))
  let aBody := trim (lower (chars candidateMsg.body))
  let s1 := (quotedReplySignal question qBody opts).2
  let patternScore := getAnswerPatternScore aBody
  let s2 :=
    if 0 < patternScore then
      [{ name := "answer_pattern", score := patternScore,
         detail := getAnswerPatternDetail aBody }]
    else []
  let questionKeywords := question.keywords.getD (extractKeywords qBody)
  let overlap := keywordOverlapScore questionKeywords (extractKeywords aBody)
  let s3 :=
    if 0 < overlap then
      [{ name := "keyword_overlap", score := overlap,
         detail := toString (jsRound (overlap * 100)) ++ "% keyword overlap" }]
    else []
  let s4 :=
    if !question.sender.isEmpty &&
        (splitWs (lower (chars question.sender))).any
          (fun part => decide (3 ≤ part.length) && includesSub aBody part) then
      [{ name := "addresses_asker", score := 3/10,
         detail := "mentions " ++ question.sender }]
    else []
  let s5 := (timeProximitySignal opts.timeDeltaMs).2
  let s6 := (conversationProximitySignal opts.recentMsgCount).2
  let s7 :=
    if candidateMsg.sender == question.sender then
      [{ name := "self_reply", score := -(1/2), detail := "same person as asker" }]
    else []
  let s8 :=
    if opts.isFromMe && candidateMsg.sender != question.sender then
      [{ name := "manager_reply", score := 1/4,
         detail := "your reply to someone else" ++ String.mk [apos] ++ "s question" }]
    else []
  let s9 :=
    if 100 < aBody.length then
      [{ name := "substantive_reply", score := 3/20, detail := "detailed response" }]
    else if 30 < aBody.length then
      [{ name := "substantive_reply", score := 1/20, detail := "moderate response" }]
    else []
  let typeScore := questionTypeAnswerMatch question.questionType aBody
  let s10 :=
    if 0 < typeScore then
      [{ name := "type_match", score := typeScore,
         detail := "matches " ++ (question.questionType.getD "undefined") ++
           " answer pattern" }]
    else []
  s1 ++ s2 ++ s3 ++ s4 ++ s5 ++ s6 ++ s7 ++ s8 ++ s9 ++ s10

/-- The record returned by `scoreAnswer`. -/
structure ScoreResult where
  confidence : ℚ
  signals : List Signal
deriving DecidableEq

/-- `scoreAnswer(question, candidateMsg, opts)`: multi-signal confidence,
clamped to [0,1] and rounded to two decimals. -/
def scoreAnswer (question : ScoreQuestion) (candidateMsg : ScoreCandidate)
    (opts : ScoreOpts) : ScoreResult :=
  let aBody := trim (lower (chars candidateMsg.body))
  if aBody.isEmpty then { confidence := 0, signals := [] }
  else
    let total := scoreAnswerTotal question candidateMsg opts
    let confidence := max 0 (min 1 total)
    { confidence := (jsRound (confidence * 100) : ℚ) / 100
      signals := scoreAnswerSignals question candidateMsg opts }

end Analyzer

namespace AIClassifier

/-- JS `o || d` for an optional string: `undefined` and `""` are falsy. -/
def jsOrStr (o : Option String) (d : String) : String :=
  match o with
  | some s => if s.isEmpty then d else s
  | none => d

/-- JS `o || d` for an optional number: `undefined` and `0` are falsy. -/
def jsOrQ (o : Option ℚ) (d : ℚ) : ℚ :=
  match o with
  | some q => if q == 0 then d else q
  | none => d

/-- JS `o || d` for an optional integer (milliseconds). -/
def jsOrZ (o : Option ℤ) (d : ℤ) : ℤ :=
  match o with
  | some v => if v == 0 then d else v
  | none => d

/-- The normalized classification value produced by `_callAPI` for each
batch element. -/
structure AIResult where
  intent : String
  questionType : Option String
  priority : String
  confidence : ℚ
  isActionable : Bool
  summary : String
  classifiedBy : String := "ai"
deriving DecidableEq

/-- One raw element of the service response array, before normalization;
`none` fields model absent JSON properties. -/
structure RawItem where
  intent : Option String := none
  question_type : Option String := none
  priority : Option String := none
  confidence : Option ℚ := none
  is_actionable : Bool := false
  summary : Option String := none
deriving DecidableEq

/-- The per-element normalization of `_callAPI`: `null` / non-object
elements map to `null`; otherwise safe defaults are filled in and the
confidence is clamped to [0,1].  (`r.confidence || 0.5` makes an explicit
confidence of 0 fall back to 0.5 — JS numeric falsiness.) -/
def normalizeItem (r : Option RawItem) : Option AIResult :=
  match r with
  | none => none
  | some r =>
    some { intent := jsOrStr r.intent "other"
           questionType :=
             (match r.question_type with
              | some t => if t.isEmpty then none else some t
              | none => none)
           priority := jsOrStr r.priority "normal"
           confidence := min 1 (max 0 (jsOrQ r.confidence (1/2)))
           isActionable := r.is_actionable
           summary := jsOrStr r.summary ""
           classifiedBy := "ai" }

/-- Constructor constants of `AIClassifier` (`src/server.js`). -/
structure Config where
  batchSize : ℕ := 10
  batchDelayMs : ℤ := 3000
  rateLimitDelayMs : ℤ := 13000
  maxRetries : ℕ := 3
  retryBaseDelayMs : ℤ := 15000

/-- The default configuration built by the constructor. -/
def defaultConfig : Config := {}

/-- Outcome of one HTTPS attempt, as `_callAPI` discriminates it:
`throttle` is a 429 (carrying the `_parseRetryAfter` result, in ms);
`overloaded` is a 529; `apiError` covers every path that lands in the
`catch` block (any other non-2xx status, an unparsable response body, an
`error` field in the response, an unparsable inner text, or a network
error / timeout of the request itself); `notArray` is a 2xx whose parsed
content is not a JSON array; `success` is a 2xx with an array body. -/
inductive ApiOutcome where
  | throttle (retryAfterMs : Option ℤ)
  | overloaded
  | apiError
  | notArray
  | success (items : List (Option RawItem))
deriving DecidableEq

/-- An environment giving each attempt number its outcome and the
latency (ms, non-negative) of the HTTPS round-trip. -/
def Env : Type := ℕ → ApiOutcome × ℕ

/-- Mutable classifier clock state: current time and `lastRequestTime`. -/
structure CallState where
  now : ℤ
  last : ℤ
deriving DecidableEq

/-- What one `_callAPI` run produces: the per-message results, the start
times of every HTTPS attempt, and the final clock state. -/
structure CallOutput where
  results : List (Option AIResult)
  starts : List ℤ
  state : CallState

/-- `retryBaseDelayMs * Math.pow(2, attempt)`. -/
def backoff (cfg : Config) (attempt : ℕ) : ℤ := cfg.retryBaseDelayMs * 2 ^ attempt

/-- The retry loop of `_callAPI` (`for attempt = 0; attempt <= maxRetries`):
`fuel` is the number of retries still allowed (`maxRetries - attempt`),
so a retryable failure with `fuel = 0` exhausts the budget and returns
all-`null`.  Every attempt records `lastRequestTime := Date.now()` at its
start; a 429 waits the parsed retry-after if present, else the
exponential backoff; 529 and the `catch` path wait the exponential
backoff. -/
def callAPIGo (cfg : Config) {α : Type} (msgs : List α) (env : Env) :
    ℕ → ℕ → ℤ → CallOutput
  | 0, attempt, now =>
    let start := now
    let tResp := start + ((env attempt).2 : ℤ)
    match (env attempt).1 with
    | .success items =>
      { results := items.map normalizeItem, starts := [start],
        state := { now := tResp, last := start } }
    | .notArray =>
      { results := msgs.map fun _ => none, starts := [start],
        state := { now := tResp, last := start } }
    | .throttle _ =>
      { results := msgs.map fun _ => none, starts := [start],
        state := { now := tResp, last := start } }
    | .overloaded =>
      { results := msgs.map fun _ => none, starts := [start],
        state := { now := tResp, last := start } }
    | .apiError =>
      { results := msgs.map fun _ => none, starts := [start],
        state := { now := tResp, last := start } }
  | fuel + 1, attempt, now =>
    let start := now
    let tResp := start + ((env attempt).2 : ℤ)
    match (env attempt).1 with
    | .success items =>
      { results := items.map normalizeItem, starts := [start],
        state := { now := tResp, last := start } }
    | .notArray =>
      { results := msgs.map fun _ => none, starts := [start],
        state := { now := tResp, last := start } }
    | .throttle r =>
      let rest := callAPIGo cfg msgs env fuel (attempt + 1)
        (tResp + jsOrZ r (backoff cfg attempt))
      { rest with starts := start :: rest.starts }
    | .overloaded =>
      let rest := callAPIGo cfg msgs env fuel (attempt + 1)
        (tResp + backoff cfg attempt)
      { rest with starts := start :: rest.starts }
    | .apiError =>
      let rest := callAPIGo cfg msgs env fuel (attempt + 1)
        (tResp + backoff cfg attempt)
      { rest with starts := start :: rest.starts }

/-- `_callAPI(messages)`: empty input returns `[]` immediately;
otherwise `_waitForRateLimit` sleeps until `rateLimitDelayMs` has
elapsed since `lastRequestTime`, then the attempt loop runs. -/
def callAPI (cfg : Config) {α : Type} (msgs : List α) (env : Env)
    (st : CallState) : CallOutput :=
  if msgs.isEmpty then { results := [], starts := [], state := st }
  else
    let elapsed := st.now - st.last
    let waitMs := cfg.rateLimitDelayMs - elapsed
    let now1 := if 0 < waitMs then st.now + waitMs else st.now
    callAPIGo cfg msgs env cfg.maxRetries 0 now1

/-- JS `try { body } catch (err) { handler }`. -/
def jsTry {α : Type} (body : Except String α) (handler : String → α) : α :=
  match body with
  | .ok v => v
  | .error e => handler e

/-- A queued classification job.  The completion callback may throw;
`none` models an absent callback. -/
structure QueuedJob where
  id : String
  body : String
  sender : String
  chatName : String
  isGroupChat : Bool
  onClassified : Option (String → AIResult → Except String Unit)

/-- The callback loop of `_processBatch`: for index `i`, the callback is
invoked iff `results[i]` is non-null and the job has one (`if (result &&
item.onClassified)`); a missing index (short results array) reads as
`undefined` and is skipped.  An exception from the callback is caught
inside the loop and only logged.  The returned list records every
invocation as (index, job id, result); the `Except` layer propagates any
exception that is *not* caught — none is, which theorem C1 makes
precise. -/
def runCallbacksE : List QueuedJob → List (Option AIResult) → ℕ →
    Except String (List (ℕ × String × AIResult))
  | [], _, _ => .ok []
  | j :: js, rs, i =>
    let invoked : List (ℕ × String × AIResult) :=
      match rs.headD none, j.onClassified with
      | some r, some f =>
        let _ : Unit := jsTry (f j.id r) fun _ => ()
        [(i, j.id, r)]
      | _, _ => []
    (runCallbacksE js (rs.drop 1) (i + 1)).map fun rest => invoked ++ rest

/-- `_processBatch` applied to an already-spliced batch: call the API,
then run the callback loop.  `_callAPI` is total (every internal failure
path returns a value), so the only possible exception source is the
callback loop. -/
def processBatchE (cfg : Config) (batch : List QueuedJob) (env : Env)
    (st : CallState) : Except String (List (ℕ × String × AIResult) × CallOutput) :=
  let out := callAPI cfg batch env st
  (runCallbacksE batch out.results 0).map fun inv => (inv, out)

/-- A sequence of batches processed one after another (each later batch
starts from the clock state the previous one left). -/
def runCalls (cfg : Config) {α : Type} :
    List (List α × Env) → CallState → List ℤ × CallState
  | [], st => ([], st)
  | (msgs, env) :: rest, st =>
    let out := callAPI cfg msgs env st
    let (starts, fin) := runCalls cfg rest out.state
    (out.starts ++ starts, fin)

/-- A job as the queue sees it (the fields that drive queue dynamics). -/
structure CJob where
  id : String
  body : String
deriving DecidableEq

/-- Queue state: pending jobs, the pending batch-collection timer
(absolute expiry time), the in-flight flag, and the recorded dispatch
times. -/
structure QueueState where
  queue : List CJob
  batchTimer : Option ℤ
  processing : Bool
  dispatches : List ℤ
deriving DecidableEq

/-- The initial (idle) queue state. -/
def idleQueue : QueueState :=
  { queue := [], batchTimer := none, processing := false, dispatches := [] }

/-- The synchronous prefix of `_processBatch` at time `t`: a no-op while
a batch is in flight or the queue is empty; otherwise it splices off up
to `batchSize` jobs and dispatches them.  (The completion of the batch —
resetting `processing` and rescheduling — happens later in real time and
is outside what claim C8 needs.) -/
def processBatchStep (cfg : Config) (st : QueueState) (t : ℤ) : QueueState :=
  if st.processing || st.queue.isEmpty then st
  else
    { st with
        processing := true
        queue := st.queue.drop cfg.batchSize
        dispatches := st.dispatches ++ [t] }

/-- The timer callback: it nulls the timer handle and runs
`_processBatch`. -/
def timerFire (cfg : Config) (st : QueueState) (t : ℤ) : QueueState :=
  if st.batchTimer == some t then
    processBatchStep cfg { st with batchTimer := none } t
  else st

/-- `queueMessage(job)` at time `t`: skip when disabled or the trimmed
body is shorter than 3; push the job; start the batch timer if none is
pending; if the queue has reached `batchSize`, cancel the timer and
dispatch immediately. -/
def queueMessage (cfg : Config) (enabled : Bool) (st : QueueState) (t : ℤ)
    (j : CJob) : QueueState :=
  if !enabled then st
  else if (Txt.trim (Txt.chars j.body)).length < 3 then st
  else
    let st1 := { st with queue := st.queue ++ [j] }
    let st2 :=
      if st1.batchTimer.isNone then { st1 with batchTimer := some (t + cfg.batchDelayMs) }
      else st1
    if cfg.batchSize ≤ st2.queue.length then
      processBatchStep cfg { st2 with batchTimer := none } t
    else st2

/-- Fold a sequence of timed enqueue operations. -/
def enqueueAll (cfg : Config) (enabled : Bool) (st : QueueState) :
    List (ℤ × CJob) → QueueState
  | [] => st
  | (t, j) :: rest => enqueueAll cfg enabled (queueMessage cfg enabled st t j) rest

end AIClassifier

namespace Txt

/-- JS `s.substring(0, n)`. -/
def strTake (n : ℕ) (s : String) : String := String.mk (s.data.take n)

/-- JS `s || d` on strings. -/
def jsOrS (s d : String) : String := if s.isEmpty then d else s

end Txt

namespace Store

/-- A row of the `questions` table, with the columns the lifecycle
operations read or write (snake_case, as in the schema).  Optional
columns are `Option`; `dismissed` and `manually_resolved` default to
`false` in the schema. -/
structure QuestionRow where
  id : String
  chat_id : String
  chat_name : String := ""
  sender : String
  body : String
  timestamp : ℤ
  status : String
  priority : String := "normal"
  question_type : String := "general"
  keywords : List (List Char) := []
  answered_by : Option String := none
  answered_at : Option ℤ := none
  answer_confidence : Option ℚ := none
  answer_reason : Option String := none
  answer_preview : Option String := none
  answer_id : Option String := none
  dismissed : Bool := false
  dismissed_by : Option String := none
  dismissed_at : Option ℤ := none
  manually_resolved : Bool := false
  classified_by : Option String := none
  ai_confidence : Option ℚ := none
  ai_intent : Option String := none
  ai_summary : Option String := none
  ai_is_actionable : Option Bool := none
deriving DecidableEq

/-- A row of the `answer_candidates` table. -/
structure CandidateRow where
  id : String
  question_id : String
  chat_id : String
  msg_id : Option String := none
  sender : String
  body : String
  timestamp : ℤ
  confidence : ℚ
  signals : List Analyzer.Signal := []
  is_quoted_reply : Bool := false
  is_accepted : Bool := false
deriving DecidableEq

/-- The persisted state the lifecycle operations act on. -/
structure St where
  questions : List QuestionRow
  candidates : List CandidateRow
deriving DecidableEq

/-- `reopenQuestion(questionId)`: the update map applied to the matching
row — status back to open, every answer/dismissal column nulled,
`dismissed` and `manually_resolved` back to false. -/
def reopenUpdate (q : QuestionRow) : QuestionRow :=
  { q with
      status := "open"
      answered_by := none
      answered_at := none
      answer_confidence := none
      answer_reason := none
      answer_preview := none
      answer_id := none
      dismissed := false
      dismissed_by := none
      dismissed_at := none
      manually_resolved := false }

/-- `reopenQuestion`: update the rows whose `id` matches. -/
def reopenQuestion (questionId : String) (s : St) : St :=
  { s with
      questions := s.questions.map fun q =>
        if q.id == questionId then reopenUpdate q else q }

/-- `acceptAnswerCandidate(candidateId)`: look the candidate up
(`.single()` — first row with that id), mark it accepted, un-accept
every other candidate of the same question, and move the question to
answered with `answer_reason = "manually accepted"`. -/
def acceptAnswerCandidate (candidateId : String) (s : St) : St :=
  match s.candidates.find? (fun c => c.id == candidateId) with
  | none => s
  | some cand =>
    let cands1 := s.candidates.map fun c =>
      if c.id == candidateId then { c with is_accepted := true } else c
    let cands2 := cands1.map fun c =>
      if c.id != candidateId && c.question_id == cand.question_id then
        { c with is_accepted := false }
      else c
    let qs := s.questions.map fun q =>
      if q.id == cand.question_id then
        { q with
            status := "answered"
            answered_by := some cand.sender
            answered_at := some cand.timestamp
            answer_confidence := some cand.confidence
            answer_reason := some "manually accepted"
            answer_preview := some (Txt.strTake 200 cand.body)
            answer_id := some candidateId
            manually_resolved := true }
      else q
    { questions := qs, candidates := cands2 }

/-- `updateQuestionAIClassification(questionId, aiResult)`: the update
object applied to one row.  Base fields always record the AI metadata;
when the AI confirms a question (non-empty type), type and priority are
refreshed; when the AI reports a non-question intent with confidence ≥
0.8, the row is dismissed with actor `"AI (not a question)"`.  The row
is selected by id only — its current status is never consulted. -/
def aiUpdateApply (res : AIClassifier.AIResult) (now : ℤ) (q : QuestionRow) : QuestionRow :=
  let q1 :=
    { q with
        classified_by := some "ai"
        ai_confidence := some (if res.confidence == 0 then 0 else res.confidence)
        ai_intent := some (AIClassifier.jsOrStr (some res.intent) "other")
        ai_summary := some (AIClassifier.jsOrStr (some res.summary) "")
        ai_is_actionable := some res.isActionable }
  let q2 :=
    match res.questionType with
    | some t =>
      if res.intent == "question" && !t.isEmpty then
        { q1 with
            question_type := t
            priority := AIClassifier.jsOrStr (some res.priority) "normal" }
      else q1
    | none => q1
  if res.intent != "question" && 8/10 ≤ res.confidence then
    { q2 with
        status := "dismissed"
        dismissed := true
        dismissed_by := some "AI (not a question)"
        dismissed_at := some now }
  else q2

/-- `updateQuestionAIClassification`: a null result is a no-op;
otherwise the update is applied to the rows whose `id` matches. -/
def updateQuestionAIClassification (questionId : String)
    (aiResult : Option AIClassifier.AIResult) (now : ℤ) (s : St) : St :=
  match aiResult with
  | none => s
  | some res =>
    { s with
        questions := s.questions.map fun q =>
          if q.id == questionId then aiUpdateApply res now q else q }

/-- The top-contributing signal: positive-score entries sorted by score
descending (JS stable sort), first taken — i.e. the earliest entry of
maximal score. -/
def topSignal (signals : List Analyzer.Signal) : Option Analyzer.Signal :=
  match signals.filter (fun sg => decide (0 < sg.score)) with
  | [] => none
  | h :: t => some (t.foldl (fun best sg => if best.score < sg.score then sg else best) h)

/-- The arguments of `checkForAnswers` (the incoming message and its
situational context).  `timestamp` is `Option` because JS falls back to
`Date.now()` when it is absent; `idGen` supplies the generated candidate
ids (`ac_<time>_<random>` in the source); `hasAnalyzer` models the
`analyzer ? … : {confidence: 0}` guard. -/
structure CheckArgs where
  chatId : String
  sender : String
  body : String
  timestamp : Option ℤ := none
  dateNow : ℤ := 0
  msgId : Option String := none
  quotedMsgBody : Option String := none
  quotedMsgSender : Option String := none
  isQuotedReply : Bool := false
  isMyMessage : Bool := false
  recentMsgCount : ℕ := 0
  hasAnalyzer : Bool := true
  idGen : ℕ → String := fun n => "ac_" ++ toString n

/-- One iteration of the `for (const q of pendingQs)` loop of
`checkForAnswers`: skip questions younger than 2 s or older than 24 h;
score the message against the row.  The row is passed to
`analyzer.scoreAnswer` as-is, so the camelCase reads `question.questionType`
come back `undefined` (the column is `question_type`), while
`question.keywords` and the rest exist; a confidence ≥ 0.2 inserts a
candidate (accepted iff ≥ 0.5), and an accepted candidate also moves the
question to answered with the top signal detail as reason. -/
def checkOne (a : CheckArgs) (now : ℤ) (acc : St × ℕ) (q : QuestionRow) : St × ℕ :=
  let (st, idx) := acc
  let age := now - q.timestamp
  if age < 2000 || 24 * 60 * 60 * 1000 < age then (st, idx)
  else
    let res :=
      if a.hasAnalyzer then
        Analyzer.scoreAnswer
          { body := q.body, sender := q.sender, questionType := none,
            keywords := some q.keywords }
          { body := a.body, sender := a.sender }
          { isQuotedReply := a.isQuotedReply, quotedMsgBody := a.quotedMsgBody,
            quotedMsgSender := a.quotedMsgSender, isFromMe := a.isMyMessage,
            timeDeltaMs := age, recentMsgCount := a.recentMsgCount }
      else { confidence := 0, signals := [] }
    if 1/5 ≤ res.confidence then
      let candidateId := a.idGen idx
      let isAccepted := decide ((1/2 : ℚ) ≤ res.confidence)
      let newCand : CandidateRow :=
        { id := candidateId, question_id := q.id, chat_id := a.chatId,
          msg_id := a.msgId, sender := Txt.jsOrS a.sender "Unknown",
          body := Txt.strTake 500 a.body, timestamp := now,
          confidence := res.confidence, signals := res.signals,
          is_quoted_reply := a.isQuotedReply, is_accepted := isAccepted }
      let st1 := { st with candidates := st.candidates ++ [newCand] }
      if isAccepted then
        let reason :=
          match topSignal res.signals with
          | some tsg => tsg.detail
          | none => "multi-signal match"
        let st2 :=
          { st1 with
              questions := st1.questions.map fun qq =>
                if qq.id == q.id then
                  { qq with
                      status := "answered"
                      answered_by := some a.sender
                      answered_at := some now
                      answer_confidence := some res.confidence
                      answer_reason := some reason
                      answer_preview := some (Txt.strTake 200 a.body)
                      answer_id := some candidateId }
                else qq }
        (st2, idx + 1)
      else (st1, idx + 1)
    else (st, idx)

/-- `checkForAnswers`: empty bodies are skipped; the open questions of
the chat are read once from the initial state, then the loop body runs
for each. -/
def checkForAnswers (a : CheckArgs) (s : St) : St :=
  if a.body.isEmpty then s
  else
    let now := a.timestamp.getD a.dateNow
    let pendingQs := s.questions.filter fun q =>
      q.chat_id == a.chatId && q.status == "open"
    if pendingQs.isEmpty then s
    else (pendingQs.foldl (checkOne a now) (s, 0)).1

/-- The number of accepted candidates a question has. -/
def acceptedCount (s : St) (questionId : String) : ℕ :=
  (s.candidates.filter fun c => c.question_id == questionId && c.is_accepted).length

/-- The at-most-one-accepted-candidate invariant of the spec. -/
def atMostOneAccepted (s : St) : Prop :=
  ∀ qid : String, acceptedCount s qid ≤ 1

end Store

section Claims

open Txt

/-- C10: for every inbound message with `fromMe = true`, `analyze`
returns the all-negative record — own messages can never open a question
or register as a mention, regardless of body, ids or chat type. -/
theorem analyze_fromMe_allNegative (trackName : String) (m : Analyzer.WMessage)
    (myId myLid : Option String) (isGroupChat : Bool) (h : m.fromMe = true) :
    Analyzer.analyze trackName m myId myLid isGroupChat =
      { isMention := false, isQuestion := false, isDirectedQuestion := false,
        isDirectMessage := false, questionAnalysis := none } := by
  simp [Analyzer.analyze, h]

theorem analyze_fromMe_allNegative_witness :
    Analyzer.analyze "Dana Lee"
        { body := "Dana can you check this ASAP?", fromMe := true,
          mentionedIds := ["99887@c.us"] }
        (some "99887@c.us") none true =
      { isMention := false, isQuestion := false, isDirectedQuestion := false,
        isDirectMessage := false, questionAnalysis := none } :=
  analyze_fromMe_allNegative "Dana Lee" _ (some "99887@c.us") none true rfl

/-- C2 counterexample: on `"Can you send me the invoice ASAP?"` the
classifier returns question type `yes_no` (the yes/no-starter group is
tested first and `can` matches it), not `action_request` as the claim
states. -/
theorem classify_invoice_not_action_request :
    (Analyzer.analyzeQuestion "" { body := "Can you send me the invoice ASAP?" }
        none none false).map (fun r => r.questionType) = some "yes_no" ∧
      ("yes_no" : String) ≠ "action_request" := by
  constructor
  · with_unfolding_all rfl
  · decide

/-- C2 amended: classifying `"Can you send me the invoice ASAP?"` (no
extra chat context) yields question type `yes_no` — the yes/no starter
`can` wins before the action-request group is tried — and priority
`urgent` (the urgency vocabulary `asap` is present). -/
theorem classify_invoice_yes_no_urgent :
    (Analyzer.analyzeQuestion "" { body := "Can you send me the invoice ASAP?" }
        none none false).map (fun r => (r.questionType, r.priority)) =
      some ("yes_no", "urgent") := by
  with_unfolding_all rfl

/-- C3 counterexample: with equal senders the confidence is NOT bounded
by 0.3 × the no-penalty confidence.  The substantive-reply signal is
added after the ×0.3 multiplier, so a candidate whose only contribution
is substantive length scores 0.05 in both runs, and 0.05 > 0.3 × 0.05. -/
theorem scoreAnswer_self_reply_bound_fails :
    (Analyzer.scoreAnswer
        { body := "is the report done", sender := "alice",
          questionType := some "general",
          keywords := some [Txt.chars "report", Txt.chars "done"] }
        { body := "lolwhat a mess this is totally x", sender := "alice" }
        { timeDeltaMs := 7200000, recentMsgCount := 7 }).confidence = mkRat 1 20 ∧
      (Analyzer.scoreAnswer
        { body := "is the report done", sender := "alice",
          questionType := some "general",
          keywords := some [Txt.chars "report", Txt.chars "done"] }
        { body := "lolwhat a mess this is totally x", sender := "bob" }
        { timeDeltaMs := 7200000, recentMsgCount := 7 }).confidence = mkRat 1 20 ∧
      ¬ (mkRat 1 20 ≤ (3/10 : ℚ) * mkRat 1 20) := by
  refine ⟨?_, ?_, ?_⟩
  · with_unfolding_all rfl
  · with_unfolding_all rfl
  · with_unfolding_all decide

/-- C3 amended: the ×0.3 self-reply multiplier applies only to the
running total of signals 1–6 (quoted reply, answer pattern, keyword
overlap, addresses-asker, time and conversation proximity); the
substantive-reply and type-match contributions are added after it.  For
equal senders the pre-clamp total is `0.3·T + S₉ + S₁₀`, while for
distinct senders (manager-reply excluded via `isFromMe = false`, all
else equal) it is `T + S₉ + S₁₀`; the claimed ≤ 0.3× bound therefore
holds only when `S₉ = S₁₀ = 0`. -/
theorem scoreAnswerTotal_self_reply (q : Analyzer.ScoreQuestion)
    (c c2 : Analyzer.ScoreCandidate) (opts : Analyzer.ScoreOpts)
    (hm : opts.isFromMe = false) (hself : c.sender = q.sender)
    (hother : c2.sender ≠ q.sender) (hbody : c2.body = c.body) :
    Analyzer.scoreAnswerTotal q c opts =
        (3/10) * Analyzer.scoreAnswerPre q (Txt.trim (Txt.lower (Txt.chars c.body))) opts +
          Analyzer.substContrib (Txt.trim (Txt.lower (Txt.chars c.body))) +
          Analyzer.typeContrib q (Txt.trim (Txt.lower (Txt.chars c.body))) ∧
      Analyzer.scoreAnswerTotal q c2 opts =
        Analyzer.scoreAnswerPre q (Txt.trim (Txt.lower (Txt.chars c.body))) opts +
          Analyzer.substContrib (Txt.trim (Txt.lower (Txt.chars c.body))) +
          Analyzer.typeContrib q (Txt.trim (Txt.lower (Txt.chars c.body))) := by
  constructor
  · simp [Analyzer.scoreAnswerTotal, hself, hm, mul_comm]
  · simp [Analyzer.scoreAnswerTotal, hother, hm, hbody]

theorem scoreAnswerTotal_self_reply_witness :
    Analyzer.scoreAnswerTotal
        { body := "is the report done", sender := "alice",
          questionType := some "general", keywords := some [] }
        { body := "ok then", sender := "alice" }
        { timeDeltaMs := 0, recentMsgCount := 0 } =
      (3/10) * Analyzer.scoreAnswerPre
          { body := "is the report done", sender := "alice",
            questionType := some "general", keywords := some [] }
          (Txt.trim (Txt.lower (Txt.chars "ok then")))
          { timeDeltaMs := 0, recentMsgCount := 0 } +
        Analyzer.substContrib (Txt.trim (Txt.lower (Txt.chars "ok then"))) +
        Analyzer.typeContrib
          { body := "is the report done", sender := "alice",
            questionType := some "general", keywords := some [] }
          (Txt.trim (Txt.lower (Txt.chars "ok then"))) :=
  (scoreAnswerTotal_self_reply
      { body := "is the report done", sender := "alice",
        questionType := some "general", keywords := some [] }
      { body := "ok then", sender := "alice" }
      { body := "ok then", sender := "bob" }
      { timeDeltaMs := 0, recentMsgCount := 0 }
      rfl rfl (by decide) rfl).1

/-- C9: `reopenQuestion` on an answered or dismissed question produces a
row with status `open` and all of `answered_by`, `answered_at`,
`answer_confidence`, `answer_reason`, `answer_id`, `dismissed`,
`dismissed_by`, `dismissed_at`, `manually_resolved` cleared, while id,
chat id, sender, body, timestamp, priority, question type and keywords
are unchanged.  (The update also clears `answer_preview`, a column the
claim does not list on either side.) -/
theorem reopenQuestion_clears_and_frames (s : Store.St) (qid : String)
    (q : Store.QuestionRow) (hq : q ∈ s.questions) (hid : q.id = qid)
    (_hst : q.status = "answered" ∨ q.status = "dismissed") :
    ∃ q' ∈ (Store.reopenQuestion qid s).questions,
      q'.status = "open" ∧ q'.answered_by = none ∧ q'.answered_at = none ∧
      q'.answer_confidence = none ∧ q'.answer_reason = none ∧
      q'.answer_id = none ∧ q'.dismissed = false ∧ q'.dismissed_by = none ∧
      q'.dismissed_at = none ∧ q'.manually_resolved = false ∧
      q'.id = q.id ∧ q'.chat_id = q.chat_id ∧ q'.sender = q.sender ∧
      q'.body = q.body ∧ q'.timestamp = q.timestamp ∧
      q'.priority = q.priority ∧ q'.question_type = q.question_type ∧
      q'.keywords = q.keywords := by
  refine ⟨Store.reopenUpdate q, ?_, ?_⟩
  · have : Store.reopenUpdate q =
        (fun r => if r.id == qid then Store.reopenUpdate r else r) q := by
      simp [hid]
    rw [this]
    exact List.mem_map_of_mem _ hq
  · simp [Store.reopenUpdate]

theorem reopenQuestion_clears_and_frames_witness :
    ∃ q' ∈ (Store.reopenQuestion "q1"
        { questions :=
            [{ id := "q1", chat_id := "chat1", sender := "Alice",
               body := "Is the report done?", timestamp := 1000,
               status := "answered", answered_by := some "Carol",
               answered_at := some 5000, answer_confidence := some (mkRat 11 20),
               answer_reason := some "affirmative response",
               answer_preview := some "done already", answer_id := some "ac1",
               manually_resolved := true,
               keywords := [Txt.chars "report", Txt.chars "done"] }],
          candidates := [] }).questions,
      q'.status = "open" ∧ q'.answered_by = none ∧ q'.answered_at = none ∧
      q'.answer_confidence = none ∧ q'.answer_reason = none ∧
      q'.answer_id = none ∧ q'.dismissed = false ∧ q'.dismissed_by = none ∧
      q'.dismissed_at = none ∧ q'.manually_resolved = false ∧
      q'.id = "q1" ∧ q'.chat_id = "chat1" ∧ q'.sender = "Alice" ∧
      q'.body = "Is the report done?" ∧ q'.timestamp = 1000 ∧
      q'.priority = "normal" ∧ q'.question_type = "general" ∧
      q'.keywords = [Txt.chars "report", Txt.chars "done"] :=
  reopenQuestion_clears_and_frames _ "q1"
    { id := "q1", chat_id := "chat1", sender := "Alice",
      body := "Is the report done?", timestamp := 1000,
      status := "answered", answered_by := some "Carol",
      answered_at := some 5000, answer_confidence := some (mkRat 11 20),
      answer_reason := some "affirmative response",
      answer_preview := some "done already", answer_id := some "ac1",
      manually_resolved := true,
      keywords := [Txt.chars "report", Txt.chars "done"] }
    (List.mem_singleton.mpr rfl) rfl (Or.inl rfl)

/-- C4 counterexample: `updateQuestionAIClassification` selects the row
by id only and never consults its current status, so a high-confidence
non-question result dismisses even a question a human has already
answered and manually resolved — the state of a human-accepted question
IS changed (from `answered` to `dismissed`), contrary to the claim. -/
theorem aiOverride_dismisses_human_answered :
    (({ id := "q1", chat_id := "chat1", sender := "Alice",
        body := "great idea", timestamp := 0, status := "answered",
        answered_by := some "Dana", answer_id := some "ac1",
        manually_resolved := true } : Store.QuestionRow).status = "answered" ∧
      ({ id := "q1", chat_id := "chat1", sender := "Alice",
         body := "great idea", timestamp := 0, status := "answered",
         answered_by := some "Dana", answer_id := some "ac1",
         manually_resolved := true } : Store.QuestionRow).manually_resolved = true) ∧
      ((Store.updateQuestionAIClassification "q1"
          (some { intent := "reaction", questionType := none, priority := "normal",
                  confidence := mkRat 9 10, isActionable := false, summary := "" })
          77777
          { questions :=
              [{ id := "q1", chat_id := "chat1", sender := "Alice",
                 body := "great idea", timestamp := 0, status := "answered",
                 answered_by := some "Dana", answer_id := some "ac1",
                 manually_resolved := true }],
            candidates := [] }).questions.map
        fun q => (q.status, q.dismissed_by, q.dismissed_at)) =
        [("dismissed", some "AI (not a question)", some 77777)] := by
  constructor
  · exact ⟨rfl, rfl⟩
  · with_unfolding_all rfl

/-- C4 amended: a classifier result with non-question intent and
confidence ≥ 0.8 dismisses the question with actor
`"AI (not a question)"`, leaving the acceptance fields (`answer_id`,
`answered_by`, `manually_resolved`) in place; the operation only ever
moves a status to `dismissed` (never to `open` or `answered`), but it
applies to the matching row unconditionally — including questions a
human has answered or accepted, whose status does change to
`dismissed`. -/
theorem aiOverride_dismiss_direction (s : Store.St) (qid : String)
    (res : AIClassifier.AIResult) (now : ℤ) (q : Store.QuestionRow)
    (hq : q ∈ s.questions) (hid : q.id = qid)
    (hint : res.intent ≠ "question") (hconf : 8/10 ≤ res.confidence) :
    (∃ q' ∈ (Store.updateQuestionAIClassification qid (some res) now s).questions,
        q'.status = "dismissed" ∧ q'.dismissed = true ∧
        q'.dismissed_by = some "AI (not a question)" ∧
        q'.dismissed_at = some now ∧ q'.id = q.id ∧
        q'.answer_id = q.answer_id ∧ q'.answered_by = q.answered_by ∧
        q'.manually_resolved = q.manually_resolved) ∧
      ∀ (r : Store.QuestionRow) (res2 : AIClassifier.AIResult) (now2 : ℤ),
        (Store.aiUpdateApply res2 now2 r).status = r.status ∨
          (Store.aiUpdateApply res2 now2 r).status = "dismissed" := by
  constructor
  · refine ⟨Store.aiUpdateApply res now q, ?_, ?_⟩
    · have : Store.aiUpdateApply res now q =
          (fun r => if r.id == qid then Store.aiUpdateApply res now r else r) q := by
        simp [hid]
      rw [this]
      exact List.mem_map_of_mem _ hq
    · have hbne : (res.intent != "question") = true := by
        simpa using hint
      have hc2 : decide (8/10 ≤ res.confidence) = true := decide_eq_true hconf
      simp only [Store.aiUpdateApply, hbne, hc2, Bool.true_and, if_true]
      rcases hqt : res.questionType with _ | t
      · simp
      · by_cases hcase : (res.intent == "question" && !t.isEmpty) = true
        · simp_all
        · simp [hcase]
  · intro r res2 now2
    simp only [Store.aiUpdateApply]
    rcases hqt : res2.questionType with _ | t
    · split
      · right; rfl
      · left; rfl
    · split
      · right; rfl
      · left
        repeat' split
        all_goals rfl

theorem aiOverride_dismiss_direction_witness :
    (∃ q' ∈ (Store.updateQuestionAIClassification "q1"
        (some { intent := "fyi", questionType := none, priority := "normal",
                confidence := mkRat 17 20, isActionable := false, summary := "" })
        4000
        { questions :=
            [{ id := "q1", chat_id := "chat1", sender := "Alice",
               body := "fyi the office is closed", timestamp := 0,
               status := "open" }],
          candidates := [] }).questions,
        q'.status = "dismissed" ∧ q'.dismissed = true ∧
        q'.dismissed_by = some "AI (not a question)" ∧
        q'.dismissed_at = some 4000 ∧
        q'.id = ({ id := "q1", chat_id := "chat1", sender := "Alice",
                   body := "fyi the office is closed", timestamp := 0,
                   status := "open" } : Store.QuestionRow).id ∧
        q'.answer_id = ({ id := "q1", chat_id := "chat1", sender := "Alice",
                          body := "fyi the office is closed", timestamp := 0,
                          status := "open" } : Store.QuestionRow).answer_id ∧
        q'.answered_by = ({ id := "q1", chat_id := "chat1", sender := "Alice",
                            body := "fyi the office is closed", timestamp := 0,
                            status := "open" } : Store.QuestionRow).answered_by ∧
        q'.manually_resolved =
          ({ id := "q1", chat_id := "chat1", sender := "Alice",
             body := "fyi the office is closed", timestamp := 0,
             status := "open" } : Store.QuestionRow).manually_resolved) ∧
      ∀ (r : Store.QuestionRow) (res2 : AIClassifier.AIResult) (now2 : ℤ),
        (Store.aiUpdateApply res2 now2 r).status = r.status ∨
          (Store.aiUpdateApply res2 now2 r).status = "dismissed" :=
  aiOverride_dismiss_direction _ "q1"
    { intent := "fyi", questionType := none, priority := "normal",
      confidence := mkRat 17 20, isActionable := false, summary := "" }
    4000
    { id := "q1", chat_id := "chat1", sender := "Alice",
      body := "fyi the office is closed", timestamp := 0, status := "open" }
    (List.mem_singleton.mpr rfl) rfl (by decide)
    (by with_unfolding_all decide)

set_option maxRecDepth 4000 in
/-- C5 counterexample: reopening leaves candidate rows untouched, and
auto-accept inserts a fresh accepted candidate without un-accepting the
old one.  Starting from an answered question with one accepted
candidate, reopening it (invariant still holds: one accepted row) and
then letting `checkForAnswers` auto-accept a strong reply ("yes", one
minute later) leaves TWO accepted candidates for the same question. -/
theorem checkForAnswers_breaks_single_accept :
    ((Store.reopenQuestion "q1"
        { questions :=
            [{ id := "q1", chat_id := "chat1", sender := "Alice",
               body := "Is the report done?", timestamp := 0,
               status := "answered", answered_by := some "Carol",
               answer_id := some "ac_old",
               keywords := [Txt.chars "report", Txt.chars "done"] }],
          candidates :=
            [{ id := "ac_old", question_id := "q1", chat_id := "chat1",
               sender := "Carol", body := "done already", timestamp := 30000,
               confidence := mkRat 11 20, is_accepted := true }] }).questions.map
        fun q => q.status) = ["open"] ∧
      Store.acceptedCount
        (Store.reopenQuestion "q1"
          { questions :=
              [{ id := "q1", chat_id := "chat1", sender := "Alice",
                 body := "Is the report done?", timestamp := 0,
                 status := "answered", answered_by := some "Carol",
                 answer_id := some "ac_old",
                 keywords := [Txt.chars "report", Txt.chars "done"] }],
            candidates :=
              [{ id := "ac_old", question_id := "q1", chat_id := "chat1",
                 sender := "Carol", body := "done already", timestamp := 30000,
                 confidence := mkRat 11 20, is_accepted := true }] }) "q1" = 1 ∧
      Store.acceptedCount
        (Store.checkForAnswers
          { chatId := "chat1", sender := "Bob", body := "yes",
            timestamp := some 60000, recentMsgCount := 0 }
          (Store.reopenQuestion "q1"
            { questions :=
                [{ id := "q1", chat_id := "chat1", sender := "Alice",
                   body := "Is the report done?", timestamp := 0,
                   status := "answered", answered_by := some "Carol",
                   answer_id := some "ac_old",
                   keywords := [Txt.chars "report", Txt.chars "done"] }],
              candidates :=
                [{ id := "ac_old", question_id := "q1", chat_id := "chat1",
                   sender := "Carol", body := "done already", timestamp := 30000,
                   confidence := mkRat 11 20, is_accepted := true }] })) "q1" = 2 := by
  refine ⟨?_, ?_, ?_⟩
  · with_unfolding_all rfl
  · with_unfolding_all rfl
  · with_unfolding_all rfl

/-- The per-row effect of the two candidate-table passes of
`acceptAnswerCandidate`: accept the row with the chosen id, un-accept
the other rows of the question, leave the rest untouched. -/
def acceptPass (cid qid : String) (y : Store.CandidateRow) : Store.CandidateRow :=
  if y.id == cid then { y with is_accepted := true }
  else if y.question_id == qid then { y with is_accepted := false }
  else y

/-- Helper for C5: the two passes compose, per row, to `acceptPass`. -/
theorem accept_g_eq (cid qid : String) (y : Store.CandidateRow) :
    ((fun c : Store.CandidateRow =>
        if c.id != cid && c.question_id == qid then
          { c with is_accepted := false } else c)
      ((fun c : Store.CandidateRow =>
        if c.id == cid then { c with is_accepted := true } else c) y)) =
      acceptPass cid qid y := by
  by_cases h1 : y.id = cid
  · by_cases h2 : y.question_id = qid <;> simp [acceptPass, h1, h2]
  · by_cases h2 : y.question_id = qid <;> simp [acceptPass, h1, h2]

/-- Helper for C5: rows of a list that does not contain the chosen id
end up un-accepted (or untouched and not of this question), so none of
them is an accepted row of the question. -/
theorem acceptPass_filter_nil (cid qid : String) (l : List Store.CandidateRow)
    (hnone : ∀ y ∈ l, (y.id == cid) = false) :
    (l.map (acceptPass cid qid)).filter
      (fun x : Store.CandidateRow => x.question_id == qid && x.is_accepted) = [] := by
  rw [List.filter_eq_nil_iff]
  intro a ha
  rcases List.mem_map.mp ha with ⟨y, hy, rfl⟩
  have hyne : y.id ≠ cid := by simpa using hnone y hy
  by_cases hq : y.question_id = qid <;> simp [acceptPass, hyne, hq]

/-- Helper for C5: with unique candidate ids, `acceptPass` keeps exactly
one accepted row of the question — the accepted copy of the found
candidate. -/
theorem acceptPass_filter_singleton (cid : String) (c : Store.CandidateRow)
    (l : List Store.CandidateRow)
    (hf : l.find? (fun x => x.id == cid) = some c)
    (hnd : (l.map (fun x : Store.CandidateRow => x.id)).Nodup) :
    (l.map (acceptPass cid c.question_id)).filter
      (fun x : Store.CandidateRow =>
        x.question_id == c.question_id && x.is_accepted) =
      [{ c with is_accepted := true }] := by
  induction l with
  | nil => simp at hf
  | cons x xs ih =>
    by_cases hpx : (x.id == cid) = true
    · have hc : x = c := by
        rcases List.find?_cons_eq_some.mp hf with ⟨_, hxc⟩ | ⟨hneg, _⟩
        · exact hxc
        · simp [hpx] at hneg
      subst hc
      have hxid : x.id = cid := by simpa using hpx
      have hnd2 := List.nodup_cons.mp hnd
      have htail : ∀ y ∈ xs, (y.id == cid) = false := by
        intro y hy
        have hne : y.id ≠ cid := by
          intro hcontra
          apply hnd2.1
          show x.id ∈ List.map (fun z : Store.CandidateRow => z.id) xs
          rw [hxid, ← hcontra]
          exact List.mem_map_of_mem _ hy
        simpa using hne
      have hpass : acceptPass cid x.question_id x = { x with is_accepted := true } := by
        simp [acceptPass, hpx]
      rw [List.map_cons, hpass, List.filter_cons_of_pos (by simp),
        acceptPass_filter_nil cid x.question_id xs htail]
    · have hf2 : xs.find? (fun y => y.id == cid) = some c := by
        rcases List.find?_cons_eq_some.mp hf with ⟨hpos, _⟩ | ⟨_, h2⟩
        · exact absurd hpos hpx
        · exact h2
      have hnd2 := (List.nodup_cons.mp hnd).2
      have hxne : x.id ≠ cid := by simpa using hpx
      by_cases hq : (x.question_id == c.question_id) = true
      · have hpass : acceptPass cid c.question_id x = { x with is_accepted := false } := by
          simp [acceptPass, hxne, hq]
        rw [List.map_cons, hpass, List.filter_cons_of_neg (by simp)]
        exact ih hf2 hnd2
      · have hpass : acceptPass cid c.question_id x = x := by
          simp [acceptPass, hxne, hq]
        rw [List.map_cons, hpass, List.filter_cons_of_neg (by simp [hq])]
        exact ih hf2 hnd2

/-- C5 amended: manual acceptance maintains the invariant — after
`acceptAnswerCandidate` on candidate C (present in the table, candidate
ids unique), exactly one candidate of C's question is accepted, namely C
itself, and the question row carries `answerId = C.id`, status
`answered`, reason `"manually accepted"`.  The invariant is NOT
preserved by the full lifecycle, because reopen leaves `isAccepted`
flags in place and a later auto-accept inserts a second accepted row
(see the counterexample). -/
theorem acceptAnswerCandidate_exactly_one (s : Store.St) (cid : String)
    (c : Store.CandidateRow)
    (hf : s.candidates.find? (fun x => x.id == cid) = some c)
    (hnd : (s.candidates.map (fun x : Store.CandidateRow => x.id)).Nodup) :
    ((Store.acceptAnswerCandidate cid s).candidates.filter
        (fun x : Store.CandidateRow =>
          x.question_id == c.question_id && x.is_accepted)) =
      [{ c with is_accepted := true }] ∧
    ∀ q ∈ (Store.acceptAnswerCandidate cid s).questions, q.id = c.question_id →
      q.status = "answered" ∧ q.answer_id = some cid ∧
      q.answer_reason = some "manually accepted" ∧ q.manually_resolved = true := by
  have hcomp : (s.candidates.map (fun x : Store.CandidateRow =>
      if x.id == cid then { x with is_accepted := true } else x)).map
        (fun x : Store.CandidateRow =>
          if x.id != cid && x.question_id == c.question_id then
            { x with is_accepted := false } else x) =
      s.candidates.map (acceptPass cid c.question_id) := by
    rw [List.map_map]
    apply List.map_congr_left
    intro y _
    exact accept_g_eq cid c.question_id y
  constructor
  · unfold Store.acceptAnswerCandidate
    rw [hf]
    simp only
    rw [hcomp]
    exact acceptPass_filter_singleton cid c s.candidates hf hnd
  · intro q hq hid
    unfold Store.acceptAnswerCandidate at hq
    rw [hf] at hq
    simp only at hq
    rcases List.mem_map.mp hq with ⟨r, _, rfl⟩
    by_cases hrid : (r.id == c.question_id) = true
    · simp [hrid]
    · rw [if_neg (by simpa using hrid)] at hid ⊢
      exact absurd hid (by simpa using hrid)

theorem acceptAnswerCandidate_exactly_one_witness :
    ((Store.acceptAnswerCandidate "ac2"
        { questions :=
            [{ id := "q1", chat_id := "chat1", sender := "Alice",
               body := "Is the report done?", timestamp := 0, status := "open" }],
          candidates :=
            [{ id := "ac1", question_id := "q1", chat_id := "chat1",
               sender := "Carol", body := "done already", timestamp := 30000,
               confidence := mkRat 11 20, is_accepted := true },
             { id := "ac2", question_id := "q1", chat_id := "chat1",
               sender := "Bob", body := "yes it is", timestamp := 40000,
               confidence := mkRat 7 20, is_accepted := false }] }).candidates.filter
        (fun x : Store.CandidateRow => x.question_id == "q1" && x.is_accepted)) =
      [{ id := "ac2", question_id := "q1", chat_id := "chat1",
         sender := "Bob", body := "yes it is", timestamp := 40000,
         confidence := mkRat 7 20, is_accepted := true }] :=
  (acceptAnswerCandidate_exactly_one
      { questions :=
          [{ id := "q1", chat_id := "chat1", sender := "Alice",
             body := "Is the report done?", timestamp := 0, status := "open" }],
        candidates :=
          [{ id := "ac1", question_id := "q1", chat_id := "chat1",
             sender := "Carol", body := "done already", timestamp := 30000,
             confidence := mkRat 11 20, is_accepted := true },
           { id := "ac2", question_id := "q1", chat_id := "chat1",
             sender := "Bob", body := "yes it is", timestamp := 40000,
             confidence := mkRat 7 20, is_accepted := false }] }
      "ac2"
      { id := "ac2", question_id := "q1", chat_id := "chat1",
        sender := "Bob", body := "yes it is", timestamp := 40000,
        confidence := mkRat 7 20, is_accepted := false }
      (by with_unfolding_all rfl) (by with_unfolding_all decide)).1

/-- Helper for C1/C6: when every result slot is null, the callback loop
performs no invocation and returns cleanly. -/
theorem runCallbacksE_none (js : List AIClassifier.QueuedJob) :
    ∀ (rs : List (Option AIClassifier.AIResult)), (∀ r ∈ rs, r = none) →
      ∀ i, AIClassifier.runCallbacksE js rs i = .ok [] := by
  induction js with
  | nil => intro rs _ i; rfl
  | cons j js ih =>
    intro rs h i
    have hh : rs.headD none = none := by
      cases rs with
      | nil => rfl
      | cons a t => exact h a (List.mem_cons_self a t)
    have htail : ∀ r ∈ rs.drop 1, r = none := fun r hr =>
      h r (List.mem_of_mem_drop hr)
    simp only [AIClassifier.runCallbacksE, hh]
    rw [ih (rs.drop 1) htail (i + 1)]
    rfl

/-- C1 corrected: when `_callAPI` degrades (returns a null result for
every job of the batch), `_processBatch` invokes NO completion callback
at all — the guard `if (result && item.onClassified)` skips null results
— and it raises nothing to the caller (the run is `Except.ok`).  The
jobs are silently dropped; the deterministic classification stands. -/
theorem processBatch_degradation_no_callbacks (cfg : AIClassifier.Config)
    (batch : List AIClassifier.QueuedJob) (env : AIClassifier.Env)
    (st : AIClassifier.CallState)
    (hdeg : (AIClassifier.callAPI cfg batch env st).results =
      batch.map fun _ => none) :
    AIClassifier.processBatchE cfg batch env st =
      .ok ([], AIClassifier.callAPI cfg batch env st) := by
  rw [show AIClassifier.processBatchE cfg batch env st =
      (AIClassifier.runCallbacksE batch
        (AIClassifier.callAPI cfg batch env st).results 0).map
          (fun inv => (inv, AIClassifier.callAPI cfg batch env st)) from rfl]
  rw [hdeg, runCallbacksE_none batch (batch.map fun _ => none) (by simp) 0]
  rfl

theorem processBatch_degradation_no_callbacks_witness :
    AIClassifier.processBatchE AIClassifier.defaultConfig
        [{ id := "m1", body := "is the build green?", sender := "Bob",
           chatName := "Team", isGroupChat := true,
           onClassified := some fun _ _ => .ok () }]
        (fun _ => (.throttle none, 0)) { now := 0, last := 0 } =
      .ok ([], AIClassifier.callAPI AIClassifier.defaultConfig
        ([{ id := "m1", body := "is the build green?", sender := "Bob",
            chatName := "Team", isGroupChat := true,
            onClassified := some fun _ _ => .ok () }] :
          List AIClassifier.QueuedJob)
        (fun _ => (.throttle none, 0)) { now := 0, last := 0 }) :=
  processBatch_degradation_no_callbacks AIClassifier.defaultConfig
    [{ id := "m1", body := "is the build green?", sender := "Bob",
       chatName := "Team", isGroupChat := true,
       onClassified := some fun _ _ => .ok () }]
    (fun _ => (.throttle none, 0)) { now := 0, last := 0 }
    (by with_unfolding_all rfl)

/-- C1 counterexample: a throttle response on every attempt exhausts the
retries and yields a null result for every job, and then the completion
callback of the job — although present — is invoked ZERO times, not
exactly once as the claim states. -/
theorem processBatch_throttle_zero_invocations :
    (AIClassifier.callAPI AIClassifier.defaultConfig
        ([{ id := "m1", body := "is the build green?", sender := "Bob",
            chatName := "Team", isGroupChat := true,
            onClassified := some fun _ _ => .ok () }] :
          List AIClassifier.QueuedJob)
        (fun _ => (.throttle none, 0)) { now := 0, last := 0 }).results = [none] ∧
      (AIClassifier.processBatchE AIClassifier.defaultConfig
        [{ id := "m1", body := "is the build green?", sender := "Bob",
           chatName := "Team", isGroupChat := true,
           onClassified := some fun _ _ => .ok () }]
        (fun _ => (.throttle none, 0)) { now := 0, last := 0 }).map Prod.fst =
        .ok [] := by
  constructor
  · with_unfolding_all rfl
  · with_unfolding_all rfl

/-- C6 counterexample: a successfully parsed ARRAY response of the wrong
length is not rejected.  For a batch of two jobs, a one-element array
response produces a one-element result list (`parsed.map`, not
`messages.map`), and `_processBatch` then applies it by index: the first
job's callback IS invoked with the element while the second job gets
nothing — the batch is partially applied, not treated as a whole-batch
failure. -/
theorem callAPI_short_array_partial :
    (AIClassifier.callAPI AIClassifier.defaultConfig
        ([{ id := "m1", body := "is it done?", sender := "Bob",
            chatName := "Team", isGroupChat := true,
            onClassified := some fun _ _ => .ok () },
          { id := "m2", body := "need the file", sender := "Eve",
            chatName := "Team", isGroupChat := true,
            onClassified := some fun _ _ => .ok () }] :
          List AIClassifier.QueuedJob)
        (fun _ => (.success [some { intent := some "question",
                                    confidence := some (mkRat 9 10) }], 0))
        { now := 0, last := 0 }).results =
      [some { intent := "question", questionType := none, priority := "normal",
              confidence := mkRat 9 10, isActionable := false, summary := "",
              classifiedBy := "ai" }] ∧
      (AIClassifier.processBatchE AIClassifier.defaultConfig
        [{ id := "m1", body := "is it done?", sender := "Bob",
           chatName := "Team", isGroupChat := true,
           onClassified := some fun _ _ => .ok () },
         { id := "m2", body := "need the file", sender := "Eve",
           chatName := "Team", isGroupChat := true,
           onClassified := some fun _ _ => .ok () }]
        (fun _ => (.success [some { intent := some "question",
                                    confidence := some (mkRat 9 10) }], 0))
        { now := 0, last := 0 }).map
          Prod.fst =
        .ok [(0, "m1", { intent := "question", questionType := none,
                         priority := "normal", confidence := mkRat 9 10,
                         isActionable := false, summary := "",
                         classifiedBy := "ai" })] := by
  constructor
  · with_unfolding_all rfl
  · with_unfolding_all rfl

/-- C6 corrected/amended: a successfully parsed response that is not an
array fails the whole batch (every result null); but an ARRAY response
is mapped element-by-element with no length check, so the result list
has the array's length, not the batch's — a shorter array reaches only
the first jobs and a longer one is silently truncated by the callback
loop index. -/
theorem callAPI_response_mapping (cfg : AIClassifier.Config) {α : Type}
    (msgs : List α) (env env2 : AIClassifier.Env)
    (st st2 : AIClassifier.CallState) (items : List (Option AIClassifier.RawItem))
    (hne : msgs ≠ [])
    (hsucc : (env 0).1 = AIClassifier.ApiOutcome.success items)
    (hnotarr : (env2 0).1 = AIClassifier.ApiOutcome.notArray) :
    (AIClassifier.callAPI cfg msgs env st).results =
        items.map AIClassifier.normalizeItem ∧
      (AIClassifier.callAPI cfg msgs env2 st2).results = msgs.map fun _ => none := by
  have h0 : msgs.isEmpty = false := by
    cases msgs with
    | nil => exact absurd rfl hne
    | cons a l => rfl
  constructor
  · simp only [AIClassifier.callAPI, h0, Bool.false_eq_true, if_false]
    cases hfuel : cfg.maxRetries <;> simp only [AIClassifier.callAPIGo, hsucc]
  · simp only [AIClassifier.callAPI, h0, Bool.false_eq_true, if_false]
    cases hfuel : cfg.maxRetries <;> simp only [AIClassifier.callAPIGo, hnotarr]

theorem callAPI_response_mapping_witness :
    (AIClassifier.callAPI AIClassifier.defaultConfig [(), ()]
        (fun _ => (.success [none], 0)) { now := 0, last := 0 }).results =
        List.map AIClassifier.normalizeItem [none] ∧
      (AIClassifier.callAPI AIClassifier.defaultConfig [(), ()]
        (fun _ => (.notArray, 0)) { now := 0, last := 0 }).results =
        List.map (fun _ => none) [(), ()] :=
  callAPI_response_mapping AIClassifier.defaultConfig [(), ()]
    (fun _ => (.success [none], 0)) (fun _ => (.notArray, 0))
    { now := 0, last := 0 } { now := 0, last := 0 } [none]
    (by decide) rfl rfl

/-- C7 counterexample: a 429 whose body carries a small parsed
retry-after ("try again in 1 s" → 2000 ms with the buffer) makes the
retry start only 2000 ms after the previous attempt start — two calls to
the service closer together than `rateLimitDelayMs = 13000`. -/
theorem callAPI_retry_breaks_rate_spacing :
    (AIClassifier.callAPI AIClassifier.defaultConfig [()]
        (fun a => if a = 0 then (.throttle (some 2000), 0) else (.success [], 0))
        { now := 0, last := 0 }).starts = [13000, 15000] ∧
      ¬ List.Chain'
          (fun a b : ℤ => a + AIClassifier.defaultConfig.rateLimitDelayMs ≤ b)
          [13000, 15000] := by
  constructor
  · with_unfolding_all rfl
  · intro h
    have h2 := List.chain'_cons.mp h
    have h3 : AIClassifier.defaultConfig.rateLimitDelayMs = 13000 := rfl
    rw [h3] at h2
    omega

/-- Helper for C7: the backoff delay is at least the rate-limit window
whenever the base delay is (default: 15000 ≥ 13000). -/
theorem backoff_ge (cfg : AIClassifier.Config)
    (hbr : cfg.rateLimitDelayMs ≤ cfg.retryBaseDelayMs)
    (hrl : 0 ≤ cfg.rateLimitDelayMs) (a : ℕ) :
    cfg.rateLimitDelayMs ≤ AIClassifier.backoff cfg a := by
  have h2 : (0:ℤ) < 2 ^ a := pow_pos (by norm_num) a
  have h1 : (1:ℤ) ≤ 2 ^ a := by omega
  have hb0 : (0:ℤ) ≤ cfg.retryBaseDelayMs := le_trans hrl hbr
  calc cfg.rateLimitDelayMs ≤ cfg.retryBaseDelayMs := hbr
    _ ≤ cfg.retryBaseDelayMs * 2 ^ a := le_mul_of_one_le_right hb0 h1
    _ = AIClassifier.backoff cfg a := rfl

/-- Helper for C7: inside one `_callAPI` run, under large throttle hints,
the attempt start times begin at `now`, are pairwise spaced by at least
`rateLimitDelayMs`, and end at the final `lastRequestTime`. -/
theorem callAPIGo_starts (cfg : AIClassifier.Config) {α : Type} (msgs : List α)
    (env : AIClassifier.Env)
    (hbr : cfg.rateLimitDelayMs ≤ cfg.retryBaseDelayMs)
    (hrl : 0 ≤ cfg.rateLimitDelayMs)
    (hhint : ∀ a r, (env a).1 = AIClassifier.ApiOutcome.throttle (some r) →
      cfg.rateLimitDelayMs ≤ r) :
    ∀ (fuel attempt : ℕ) (now : ℤ),
      (AIClassifier.callAPIGo cfg msgs env fuel attempt now).starts.head? =
          some now ∧
        List.Chain' (fun a b => a + cfg.rateLimitDelayMs ≤ b)
          (AIClassifier.callAPIGo cfg msgs env fuel attempt now).starts ∧
        (AIClassifier.callAPIGo cfg msgs env fuel attempt now).starts.getLast? =
          some (AIClassifier.callAPIGo cfg msgs env fuel attempt now).state.last := by
  intro fuel
  induction fuel with
  | zero =>
    intro attempt now
    rcases hoc : (env attempt).1 with r | _ | _ | _ | items <;>
      simp [AIClassifier.callAPIGo, hoc]
  | succ fuel ih =>
    intro attempt now
    have hstep : ∀ b : ℤ, cfg.rateLimitDelayMs ≤ b →
        (AIClassifier.callAPIGo cfg msgs env fuel (attempt + 1)
            (now + ((env attempt).2 : ℤ) + b)).starts.head? =
          some (now + ((env attempt).2 : ℤ) + b) →
        now + cfg.rateLimitDelayMs ≤ now + ((env attempt).2 : ℤ) + b := by
      intro b hb _
      have : (0:ℤ) ≤ ((env attempt).2 : ℤ) := Int.ofNat_nonneg _
      omega
    rcases hoc : (env attempt).1 with r | _ | _ | _ | items
    case throttle =>
      have hb : cfg.rateLimitDelayMs ≤ AIClassifier.jsOrZ r (AIClassifier.backoff cfg attempt) := by
        rcases r with _ | v
        · exact backoff_ge cfg hbr hrl attempt
        · simp only [AIClassifier.jsOrZ]
          split
          · exact backoff_ge cfg hbr hrl attempt
          · exact hhint attempt v hoc
      obtain ⟨ihh, ihc, ihl⟩ := ih (attempt + 1)
        (now + ((env attempt).2 : ℤ) + AIClassifier.jsOrZ r (AIClassifier.backoff cfg attempt))
      refine ⟨?_, ?_, ?_⟩
      · simp [AIClassifier.callAPIGo, hoc]
      · simp only [AIClassifier.callAPIGo, hoc]
        rw [List.chain'_cons']
        constructor
        · intro b hbmem
          rw [ihh] at hbmem
          have hb2 := hstep _ hb ihh
          simp at hbmem
          omega
        · exact ihc
      · simp only [AIClassifier.callAPIGo, hoc]
        rcases hs : (AIClassifier.callAPIGo cfg msgs env fuel (attempt + 1)
            (now + ((env attempt).2 : ℤ) +
              AIClassifier.jsOrZ r (AIClassifier.backoff cfg attempt))).starts with
            _ | ⟨s0, stail⟩
        · rw [hs] at ihh
          simp at ihh
        · rw [List.getLast?_cons_cons, ← hs]
          exact ihl
    case overloaded =>
      obtain ⟨ihh, ihc, ihl⟩ := ih (attempt + 1)
        (now + ((env attempt).2 : ℤ) + AIClassifier.backoff cfg attempt)
      refine ⟨?_, ?_, ?_⟩
      · simp [AIClassifier.callAPIGo, hoc]
      · simp only [AIClassifier.callAPIGo, hoc]
        rw [List.chain'_cons']
        constructor
        · intro b hbmem
          rw [ihh] at hbmem
          have hb2 := hstep _ (backoff_ge cfg hbr hrl attempt) ihh
          simp at hbmem
          omega
        · exact ihc
      · simp only [AIClassifier.callAPIGo, hoc]
        rcases hs : (AIClassifier.callAPIGo cfg msgs env fuel (attempt + 1)
            (now + ((env attempt).2 : ℤ) + AIClassifier.backoff cfg attempt)).starts with
            _ | ⟨s0, stail⟩
        · rw [hs] at ihh
          simp at ihh
        · rw [List.getLast?_cons_cons, ← hs]
          exact ihl
    case apiError =>
      obtain ⟨ihh, ihc, ihl⟩ := ih (attempt + 1)
        (now + ((env attempt).2 : ℤ) + AIClassifier.backoff cfg attempt)
      refine ⟨?_, ?_, ?_⟩
      · simp [AIClassifier.callAPIGo, hoc]
      · simp only [AIClassifier.callAPIGo, hoc]
        rw [List.chain'_cons']
        constructor
        · intro b hbmem
          rw [ihh] at hbmem
          have hb2 := hstep _ (backoff_ge cfg hbr hrl attempt) ihh
          simp at hbmem
          omega
        · exact ihc
      · simp only [AIClassifier.callAPIGo, hoc]
        rcases hs : (AIClassifier.callAPIGo cfg msgs env fuel (attempt + 1)
            (now + ((env attempt).2 : ℤ) + AIClassifier.backoff cfg attempt)).starts with
            _ | ⟨s0, stail⟩
        · rw [hs] at ihh
          simp at ihh
        · rw [List.getLast?_cons_cons, ← hs]
          exact ihl
    case notArray =>
      simp [AIClassifier.callAPIGo, hoc]
    case success =>
      simp [AIClassifier.callAPIGo, hoc]

/-- Helper for C7: one `_callAPI` run — the rate-limit wait puts the
first attempt at least `rateLimitDelayMs` after the incoming
`lastRequestTime`, the attempts are pairwise spaced (under large
throttle hints), the final `lastRequestTime` is the last attempt start,
and an empty run leaves the clock untouched. -/
theorem callAPI_starts_spec (cfg : AIClassifier.Config) {α : Type}
    (msgs : List α) (env : AIClassifier.Env) (st : AIClassifier.CallState)
    (hbr : cfg.rateLimitDelayMs ≤ cfg.retryBaseDelayMs)
    (hrl : 0 ≤ cfg.rateLimitDelayMs)
    (hhint : ∀ a r, (env a).1 = AIClassifier.ApiOutcome.throttle (some r) →
      cfg.rateLimitDelayMs ≤ r) :
    List.Chain' (fun a b => a + cfg.rateLimitDelayMs ≤ b)
        (AIClassifier.callAPI cfg msgs env st).starts ∧
      (∀ s ∈ (AIClassifier.callAPI cfg msgs env st).starts.head?,
        st.last + cfg.rateLimitDelayMs ≤ s) ∧
      (∀ l ∈ (AIClassifier.callAPI cfg msgs env st).starts.getLast?,
        (AIClassifier.callAPI cfg msgs env st).state.last = l) ∧
      ((AIClassifier.callAPI cfg msgs env st).starts = [] →
        (AIClassifier.callAPI cfg msgs env st).state = st) := by
  by_cases hm : msgs.isEmpty = true
  · simp [AIClassifier.callAPI, hm]
  · have hm2 : msgs.isEmpty = false := by simpa using hm
    simp only [AIClassifier.callAPI, hm2, Bool.false_eq_true, if_false]
    obtain ⟨hh, hc, hl⟩ := callAPIGo_starts cfg msgs env hbr hrl hhint
      cfg.maxRetries 0
      (if 0 < cfg.rateLimitDelayMs - (st.now - st.last) then
        st.now + (cfg.rateLimitDelayMs - (st.now - st.last)) else st.now)
    refine ⟨hc, ?_, ?_, ?_⟩
    · intro s hsmem
      rw [hh] at hsmem
      simp only [Option.mem_some_iff] at hsmem
      subst hsmem
      split
      · omega
      · omega
    · intro l hl2
      rw [hl] at hl2
      simp only [Option.mem_some_iff] at hl2
      exact hl2
    · intro hempty
      rw [hempty] at hh
      simp at hh

/-- Helper for C7: a whole sequence of batches, each batch starting from
the clock state the previous one left behind, has all dispatch starts
pairwise spaced by at least `rateLimitDelayMs`. -/
theorem runCalls_spec (cfg : AIClassifier.Config) {α : Type}
    (hbr : cfg.rateLimitDelayMs ≤ cfg.retryBaseDelayMs)
    (hrl : 0 ≤ cfg.rateLimitDelayMs) :
    ∀ (batches : List (List α × AIClassifier.Env)) (st : AIClassifier.CallState),
      (∀ be ∈ batches, ∀ a r,
        ((be.2 : AIClassifier.Env) a).1 = AIClassifier.ApiOutcome.throttle (some r) →
          cfg.rateLimitDelayMs ≤ r) →
      List.Chain' (fun a b => a + cfg.rateLimitDelayMs ≤ b)
          (AIClassifier.runCalls cfg batches st).1 ∧
        (∀ s ∈ (AIClassifier.runCalls cfg batches st).1.head?,
          st.last + cfg.rateLimitDelayMs ≤ s) ∧
        (∀ l ∈ (AIClassifier.runCalls cfg batches st).1.getLast?,
          (AIClassifier.runCalls cfg batches st).2.last = l) ∧
        ((AIClassifier.runCalls cfg batches st).1 = [] →
          (AIClassifier.runCalls cfg batches st).2 = st) := by
  intro batches
  induction batches with
  | nil =>
    intro st _
    simp [AIClassifier.runCalls]
  | cons be rest ih =>
    intro st hhints
    obtain ⟨msgs, env⟩ := be
    have hhint1 : ∀ a r, (env a).1 = AIClassifier.ApiOutcome.throttle (some r) →
        cfg.rateLimitDelayMs ≤ r :=
      fun a r h => hhints (msgs, env) (List.mem_cons_self _ _) a r h
    have hrest := fun b hb => hhints b (List.mem_cons_of_mem _ hb)
    obtain ⟨oc, oh, ol, oe⟩ := callAPI_starts_spec cfg msgs env st hbr hrl hhint1
    obtain ⟨rc, rh, rl2, re⟩ := ih (AIClassifier.callAPI cfg msgs env st).state hrest
    have hgo : AIClassifier.runCalls cfg ((msgs, env) :: rest) st =
        ((AIClassifier.callAPI cfg msgs env st).starts ++
          (AIClassifier.runCalls cfg rest (AIClassifier.callAPI cfg msgs env st).state).1,
         (AIClassifier.runCalls cfg rest (AIClassifier.callAPI cfg msgs env st).state).2) := by
      rfl
    rw [hgo]
    refine ⟨?_, ?_, ?_, ?_⟩
    · rw [List.chain'_append]
      refine ⟨oc, rc, ?_⟩
      intro x hx y hy
      have hxl := ol x hx
      have hyl := rh y hy
      omega
    · intro s hsmem
      rcases ho : (AIClassifier.callAPI cfg msgs env st).starts with _ | ⟨a, t⟩
      · rw [ho, List.nil_append] at hsmem
        have := rh s hsmem
        rw [oe ho] at this
        exact this
      · rw [ho, List.cons_append, List.head?_cons] at hsmem
        simp only [Option.mem_some_iff] at hsmem
        subst hsmem
        apply oh
        rw [ho, List.head?_cons]
        rfl
    · intro l hlmem
      rcases hr2 : (AIClassifier.runCalls cfg rest
          (AIClassifier.callAPI cfg msgs env st).state).1 with _ | ⟨a, t⟩
      · rw [hr2, List.append_nil] at hlmem
        rw [re hr2]
        exact ol l hlmem
      · rw [hr2, List.getLast?_append_cons] at hlmem
        rw [← hr2] at hlmem
        exact rl2 l hlmem
    · intro hempty
      have h1 : (AIClassifier.callAPI cfg msgs env st).starts = [] :=
        List.append_eq_nil.mp hempty |>.1
      have h2 := List.append_eq_nil.mp hempty |>.2
      rw [re h2, oe h1]

/-- C7 amended: with the default configuration, across any sequence of
batches the attempt start times are pairwise at least `rateLimitDelayMs`
apart PROVIDED no 429 response carries a parsed retry-after hint below
`rateLimitDelayMs`: the inter-batch wait (`_waitForRateLimit`) and the
exponential backoffs (base 15000 ≥ 13000) respect the window, but a
parsed retry-after is used as-is, so a small hint — and only that —
can put two call starts closer together (see the counterexample). -/
theorem rateLimit_spacing_amended {α : Type}
    (batches : List (List α × AIClassifier.Env)) (st : AIClassifier.CallState)
    (hhints : ∀ be ∈ batches, ∀ a r,
      ((be.2 : AIClassifier.Env) a).1 = AIClassifier.ApiOutcome.throttle (some r) →
        AIClassifier.defaultConfig.rateLimitDelayMs ≤ r) :
    List.Chain'
      (fun a b : ℤ => a + AIClassifier.defaultConfig.rateLimitDelayMs ≤ b)
      (AIClassifier.runCalls AIClassifier.defaultConfig batches st).1 :=
  (runCalls_spec AIClassifier.defaultConfig (by decide) (by decide)
    batches st hhints).1

theorem rateLimit_spacing_amended_witness :
    List.Chain'
      (fun a b : ℤ => a + AIClassifier.defaultConfig.rateLimitDelayMs ≤ b)
      (AIClassifier.runCalls AIClassifier.defaultConfig
        ([([()], fun _ => (.success [], 0)),
          ([()], fun _ => (.overloaded, 7))] : List (List Unit × AIClassifier.Env))
        { now := 0, last := 0 }).1 :=
  rateLimit_spacing_amended
    [([()], fun _ => (.success [], 0)), ([()], fun _ => (.overloaded, 7))]
    { now := 0, last := 0 }
    (by
      intro be hbe a r h
      simp only [List.mem_cons, List.mem_singleton] at hbe
      rcases hbe with rfl | rfl | hbe
      · simp at h
      · simp at h
      · simp at hbe)

/-- Helper for C8: a valid enqueue that neither starts the timer (one is
pending) nor fills the queue just appends the job. -/
theorem queueMessage_push (cfg : AIClassifier.Config) (st : AIClassifier.QueueState)
    (t : ℤ) (j : AIClassifier.CJob)
    (hbody : ¬ (Txt.trim (Txt.chars j.body)).length < 3)
    (hni : st.batchTimer.isNone = false)
    (hlen : st.queue.length + 1 < cfg.batchSize) :
    AIClassifier.queueMessage cfg true st t j = { st with queue := st.queue ++ [j] } := by
  have hfull : ¬ (cfg.batchSize ≤ st.queue.length + 1) := by omega
  simp [AIClassifier.queueMessage, hbody, hni, hfull]

/-- Helper for C8: the first valid enqueue on an idle queue appends the
job and arms the batch timer for `t + batchDelayMs`. -/
theorem queueMessage_first (cfg : AIClassifier.Config) (st : AIClassifier.QueueState)
    (t : ℤ) (j : AIClassifier.CJob)
    (hbody : ¬ (Txt.trim (Txt.chars j.body)).length < 3)
    (hnone : st.batchTimer = none)
    (hlen : st.queue.length + 1 < cfg.batchSize) :
    AIClassifier.queueMessage cfg true st t j =
      { st with queue := st.queue ++ [j],
                batchTimer := some (t + cfg.batchDelayMs) } := by
  have hfull : ¬ (cfg.batchSize ≤ st.queue.length + 1) := by omega
  simp [AIClassifier.queueMessage, hbody, hnone, hfull]

/-- Helper for C8: a valid enqueue that fills the queue to `batchSize`
cancels the timer and dispatches immediately at the enqueue time. -/
theorem queueMessage_dispatch (cfg : AIClassifier.Config)
    (st : AIClassifier.QueueState) (t : ℤ) (j : AIClassifier.CJob)
    (hbody : ¬ (Txt.trim (Txt.chars j.body)).length < 3)
    (hni : st.batchTimer.isNone = false)
    (hlen : st.queue.length + 1 = cfg.batchSize)
    (hproc : st.processing = false) :
    AIClassifier.queueMessage cfg true st t j =
      { queue := [], batchTimer := none, processing := true,
        dispatches := st.dispatches ++ [t] } := by
  have hfull : cfg.batchSize ≤ st.queue.length + 1 := by omega
  have hne : (st.queue ++ [j]).isEmpty = false := by
    cases st.queue <;> rfl
  have hdrop : (st.queue ++ [j]).drop cfg.batchSize = [] := by
    apply List.drop_eq_nil_of_le
    simp only [List.length_append, List.length_cons, List.length_nil]
    omega
  simp [AIClassifier.queueMessage, AIClassifier.processBatchStep, hbody, hni,
    hfull, hproc, hne, hdrop]

/-- Helper for C8: folding valid enqueues while the queue stays strictly
below `batchSize` (with a timer already pending) only appends jobs. -/
theorem enqueueAll_below (cfg : AIClassifier.Config) :
    ∀ (jobs : List (ℤ × AIClassifier.CJob)) (st : AIClassifier.QueueState),
      (∀ p ∈ jobs, 3 ≤ (Txt.trim (Txt.chars (p.2 : AIClassifier.CJob).body)).length) →
      st.batchTimer.isNone = false →
      st.queue.length + jobs.length < cfg.batchSize →
      AIClassifier.enqueueAll cfg true st jobs =
        { st with queue := st.queue ++ jobs.map Prod.snd } := by
  intro jobs
  induction jobs with
  | nil =>
    intro st _ _ _
    simp [AIClassifier.enqueueAll]
  | cons p rest ih =>
    intro st hval htimer hlen
    obtain ⟨t, j⟩ := p
    have hbody : ¬ (Txt.trim (Txt.chars j.body)).length < 3 := by
      have h3 : 3 ≤ (Txt.trim (Txt.chars j.body)).length :=
        hval (t, j) (List.mem_cons_self _ _)
      omega
    have hlen1 : st.queue.length + 1 < cfg.batchSize := by
      simp only [List.length_cons] at hlen
      omega
    show AIClassifier.enqueueAll cfg true
        (AIClassifier.queueMessage cfg true st t j) rest = _
    rw [queueMessage_push cfg st t j hbody htimer hlen1]
    rw [ih { st with queue := st.queue ++ [j] }
      (fun p hp => hval p (List.mem_cons_of_mem _ hp)) htimer
      (by simp only [List.length_append, List.length_cons, List.length_nil]
          simp only [List.length_cons] at hlen
          omega)]
    simp

/-- Helper for C8: folding valid enqueues that exactly fill the queue to
`batchSize` (timer pending, nothing in flight) dispatches at the last
enqueue time and leaves an empty queue. -/
theorem enqueueAll_fill (cfg : AIClassifier.Config) :
    ∀ (jobs : List (ℤ × AIClassifier.CJob)) (st : AIClassifier.QueueState),
      (∀ p ∈ jobs, 3 ≤ (Txt.trim (Txt.chars (p.2 : AIClassifier.CJob).body)).length) →
      st.batchTimer.isNone = false →
      st.processing = false →
      st.queue.length + jobs.length = cfg.batchSize →
      ∀ tN jN, jobs.getLast? = some (tN, jN) →
      AIClassifier.enqueueAll cfg true st jobs =
        { queue := [], batchTimer := none, processing := true,
          dispatches := st.dispatches ++ [tN] } := by
  intro jobs
  induction jobs with
  | nil =>
    intro st _ _ _ _ tN jN hlast
    simp at hlast
  | cons p rest ih =>
    intro st hval htimer hproc hlen tN jN hlast
    obtain ⟨t, j⟩ := p
    have hbody : ¬ (Txt.trim (Txt.chars j.body)).length < 3 := by
      have h3 : 3 ≤ (Txt.trim (Txt.chars j.body)).length :=
        hval (t, j) (List.mem_cons_self _ _)
      omega
    cases rest with
    | nil =>
      have hone : st.queue.length + 1 = cfg.batchSize := by
        simpa using hlen
      have htj : tN = t ∧ jN = j := by
        simp only [List.getLast?_singleton, Option.some.injEq, Prod.mk.injEq] at hlast
        exact ⟨hlast.1.symm, hlast.2.symm⟩
      obtain ⟨rfl, rfl⟩ := htj
      show AIClassifier.enqueueAll cfg true
          (AIClassifier.queueMessage cfg true st tN jN) [] = _
      rw [queueMessage_dispatch cfg st tN jN hbody htimer hone hproc]
      rfl
    | cons q rest2 =>
      have hlen1 : st.queue.length + 1 < cfg.batchSize := by
        simp only [List.length_cons] at hlen
        omega
      show AIClassifier.enqueueAll cfg true
          (AIClassifier.queueMessage cfg true st t j) (q :: rest2) = _
      rw [queueMessage_push cfg st t j hbody htimer hlen1]
      rw [ih { st with queue := st.queue ++ [j] }
        (fun p hp => hval p (List.mem_cons_of_mem _ hp)) htimer hproc
        (by simp only [List.length_append, List.length_cons, List.length_nil]
            simp only [List.length_cons] at hlen
            omega)
        tN jN (by rwa [List.getLast?_cons_cons] at hlast)]

/-- C8: starting from an idle queue, a run of N ≥ 1 valid enqueues all
inside the batch window behaves as the claim states: with N below the
batch size no dispatch happens during the enqueues and the only pending
trigger is the batch timer armed for exactly `t₁ + batchDelayMs` (3 s
after the first enqueue), so no dispatch can occur before the window
elapses; when the N-th enqueue reaches the batch size the timer is
cancelled and a dispatch is recorded immediately, at the N-th enqueue's
own time. -/
theorem queue_batch_window (t1 : ℤ) (j1 : AIClassifier.CJob)
    (rest : List (ℤ × AIClassifier.CJob))
    (hval : ∀ p ∈ (t1, j1) :: rest,
      3 ≤ (Txt.trim (Txt.chars (p.2 : AIClassifier.CJob).body)).length)
    (_hwin : ∀ p ∈ (t1, j1) :: rest,
      (p.1 : ℤ) < t1 + AIClassifier.defaultConfig.batchDelayMs) :
    (((t1, j1) :: rest).length < AIClassifier.defaultConfig.batchSize →
      AIClassifier.enqueueAll AIClassifier.defaultConfig true
          AIClassifier.idleQueue ((t1, j1) :: rest) =
        { queue := ((t1, j1) :: rest).map Prod.snd,
          batchTimer := some (t1 + AIClassifier.defaultConfig.batchDelayMs),
          processing := false, dispatches := [] }) ∧
    (((t1, j1) :: rest).length = AIClassifier.defaultConfig.batchSize →
      ∀ tN jN, ((t1, j1) :: rest).getLast? = some (tN, jN) →
      AIClassifier.enqueueAll AIClassifier.defaultConfig true
          AIClassifier.idleQueue ((t1, j1) :: rest) =
        { queue := [], batchTimer := none, processing := true,
          dispatches := [tN] }) := by
  have hbody1 : ¬ (Txt.trim (Txt.chars j1.body)).length < 3 := by
    have h3 : 3 ≤ (Txt.trim (Txt.chars j1.body)).length :=
      hval (t1, j1) (List.mem_cons_self _ _)
    omega
  have hvrest : ∀ p ∈ rest,
      3 ≤ (Txt.trim (Txt.chars (p.2 : AIClassifier.CJob).body)).length :=
    fun p hp => hval p (List.mem_cons_of_mem _ hp)
  constructor
  · intro hN
    simp only [List.length_cons] at hN
    have hfirst : AIClassifier.queueMessage AIClassifier.defaultConfig true
        AIClassifier.idleQueue t1 j1 =
        { queue := [j1],
          batchTimer := some (t1 + AIClassifier.defaultConfig.batchDelayMs),
          processing := false, dispatches := [] } := by
      rw [queueMessage_first AIClassifier.defaultConfig AIClassifier.idleQueue
        t1 j1 hbody1 rfl (by show 0 + 1 < 10; omega)]
      rfl
    show AIClassifier.enqueueAll AIClassifier.defaultConfig true
        (AIClassifier.queueMessage AIClassifier.defaultConfig true
          AIClassifier.idleQueue t1 j1) rest = _
    rw [hfirst]
    rw [enqueueAll_below AIClassifier.defaultConfig rest
      { queue := [j1],
        batchTimer := some (t1 + AIClassifier.defaultConfig.batchDelayMs),
        processing := false, dispatches := [] } hvrest rfl
      (by show 1 + rest.length < 10
          have : rest.length + 1 < AIClassifier.defaultConfig.batchSize := hN
          have h10 : AIClassifier.defaultConfig.batchSize = 10 := rfl
          omega)]
    simp
  · intro hN tN jN hlast
    have hfirst : AIClassifier.queueMessage AIClassifier.defaultConfig true
        AIClassifier.idleQueue t1 j1 =
        { queue := [j1],
          batchTimer := some (t1 + AIClassifier.defaultConfig.batchDelayMs),
          processing := false, dispatches := [] } := by
      rw [queueMessage_first AIClassifier.defaultConfig AIClassifier.idleQueue
        t1 j1 hbody1 rfl (by show 0 + 1 < 10; omega)]
      rfl
    have hrestne : rest ≠ [] := by
      intro hr
      subst hr
      simp at hN
      have : AIClassifier.defaultConfig.batchSize = 10 := rfl
      omega
    show AIClassifier.enqueueAll AIClassifier.defaultConfig true
        (AIClassifier.queueMessage AIClassifier.defaultConfig true
          AIClassifier.idleQueue t1 j1) rest = _
    rw [hfirst]
    rw [enqueueAll_fill AIClassifier.defaultConfig rest
      { queue := [j1],
        batchTimer := some (t1 + AIClassifier.defaultConfig.batchDelayMs),
        processing := false, dispatches := [] } hvrest rfl rfl
      (by show 1 + rest.length = 10
          simp only [List.length_cons] at hN
          have h10 : AIClassifier.defaultConfig.batchSize = 10 := rfl
          omega)
      tN jN ?hl]
    · rfl
    case hl =>
      rcases rest with _ | ⟨q, rest2⟩
      · exact absurd rfl hrestne
      · rwa [List.getLast?_cons_cons] at hlast

theorem queue_batch_window_witness :
    AIClassifier.enqueueAll AIClassifier.defaultConfig true
        AIClassifier.idleQueue
        ((0, { id := "a", body := "is it done?" }) ::
          [(100, { id := "b", body := "need the report" }),
           (200, { id := "c", body := "can you check?" }),
           (300, { id := "d", body := "what is the eta?" }),
           (400, { id := "e", body := "who is on call?" }),
           (500, { id := "f", body := "where is the file?" }),
           (600, { id := "g", body := "approve this?" }),
           (700, { id := "h", body := "any update?" }),
           (800, { id := "i", body := "should we ship?" }),
           (900, { id := "j", body := "when is standup?" })]) =
      { queue := [], batchTimer := none, processing := true,
        dispatches := [900] } :=
  (queue_batch_window 0 { id := "a", body := "is it done?" }
      [(100, { id := "b", body := "need the report" }),
       (200, { id := "c", body := "can you check?" }),
       (300, { id := "d", body := "what is the eta?" }),
       (400, { id := "e", body := "who is on call?" }),
       (500, { id := "f", body := "where is the file?" }),
       (600, { id := "g", body := "approve this?" }),
       (700, { id := "h", body := "any update?" }),
       (800, { id := "i", body := "should we ship?" }),
       (900, { id := "j", body := "when is standup?" })]
      (by decide) (by decide)).2 rfl 900 { id := "j", body := "when is standup?" } rfl

end Claims
